import Mathlib

/-!
Verification of the LoRaWAN stack controller (LoRaWANStack.cpp) and the
public facade (LoRaWANInterface.cpp) of the mbed-os LoRaWAN repository.

The controller is embedded shallowly: the fields of the C++ class
LoRaWANStack become a Lean structure, each modelled method becomes a pure
function from the pre-state (plus an oracle record holding the values the
method reads from the lower MAC through the MacOps contract) to the
post-state together with a trace of its outward effects (application
events, MacOps invocations, timer operations and deferred event-queue
calls).  Machine integers are modelled as Nat, with explicit reduction
modulo 2 to the 32 where the C code computes in a 32-bit unsigned type.
-/

set_option maxRecDepth 4000

/-- Status codes of lorawan_status_t that the modelled code paths can
produce (the enumeration lives in lorawan_types.h; values are symbolic
here because only their identity matters to the controller). -/
inductive lorawan_status where
  | LORAWAN_STATUS_OK
  | LORAWAN_STATUS_BUSY
  | LORAWAN_STATUS_WOULD_BLOCK
  | LORAWAN_STATUS_SERVICE_UNKNOWN
  | LORAWAN_STATUS_PARAMETER_INVALID
  | LORAWAN_STATUS_NO_NETWORK_JOINED
  | LORAWAN_STATUS_DEVICE_OFF
  | LORAWAN_STATUS_NOT_INITIALIZED
  | LORAWAN_STATUS_PORT_INVALID
  | LORAWAN_STATUS_CONNECT_IN_PROGRESS
  | LORAWAN_STATUS_NO_ACTIVE_SESSIONS
  | LORAWAN_STATUS_NO_OP
  | LORAWAN_STATUS_METADATA_NOT_AVAILABLE
  | LORAWAN_STATUS_ALREADY_CONNECTED
deriving DecidableEq

/-- Device states of the controller state machine (device_states_t). -/
inductive device_states_t where
  | DEVICE_STATE_NOT_INITIALIZED
  | DEVICE_STATE_IDLE
  | DEVICE_STATE_CONNECTING
  | DEVICE_STATE_JOINING
  | DEVICE_STATE_AWAITING_JOIN_ACCEPT
  | DEVICE_STATE_CONNECTED
  | DEVICE_STATE_SCHEDULING
  | DEVICE_STATE_SENDING
  | DEVICE_STATE_AWAITING_ACK
  | DEVICE_STATE_RECEIVING
  | DEVICE_STATE_STATUS_CHECK
  | DEVICE_STATE_SHUTDOWN
deriving DecidableEq

/-- Receive-window slots (rx_slot_t). -/
inductive rx_slot_t where
  | RX_SLOT_WIN_1
  | RX_SLOT_WIN_2
  | RX_SLOT_WIN_CLASS_C
  | RX_SLOT_WIN_BEACON
  | RX_SLOT_WIN_UNICAST_PING_SLOT
  | RX_SLOT_WIN_MULTICAST_PING_SLOT
deriving DecidableEq

/-- MCPS request and indication kinds (mcps_type_t). -/
inductive mcps_type_t where
  | MCPS_UNCONFIRMED
  | MCPS_CONFIRMED
  | MCPS_MULTICAST
  | MCPS_PROPRIETARY
deriving DecidableEq

/-- Device operating classes (device_class_t). -/
inductive device_class_t where
  | CLASS_A
  | CLASS_B
  | CLASS_C
deriving DecidableEq

/-- Server LoRaWAN versions as reported by get_server_type (server_type_t). -/
inductive server_type_t where
  | LW1_0_2
  | LW1_1
deriving DecidableEq

/-- Compile-time LoRaWAN version configuration (MBED_CONF_LORA_VERSION). -/
inductive lorawan_version_t where
  | LORAWAN_VERSION_1_0_2
  | LORAWAN_VERSION_1_1
deriving DecidableEq

/-- MLME confirm kinds handled by mlme_confirm_handler. -/
inductive mlme_type_t where
  | MLME_LINK_CHECK
  | MLME_RESET
  | MLME_REKEY
  | MLME_DEVICE_MODE
  | MLME_JOIN_ACCEPT
  | MLME_FORCE_REJOIN
  | MLME_PING_SLOT_INFO
  | MLME_BEACON_ACQUISITION
deriving DecidableEq

/-- MLME indication kinds seen by mlme_indication_handler. -/
inductive mlme_ind_t where
  | MLME_SCHEDULE_UPLINK
  | MLME_IND_OTHER
deriving DecidableEq

/-- Event-info status values carried in MLME and MCPS confirmations. -/
inductive loramac_event_info_status_t where
  | LORAMAC_EVENT_INFO_STATUS_OK
  | LORAMAC_EVENT_INFO_STATUS_CRYPTO_FAIL
  | LORAMAC_EVENT_INFO_STATUS_TX_TIMEOUT
  | LORAMAC_EVENT_INFO_STATUS_TX_DR_PAYLOAD_SIZE_ERROR
  | LORAMAC_EVENT_INFO_STATUS_BEACON_NOT_FOUND
  | LORAMAC_EVENT_INFO_STATUS_ERROR
deriving DecidableEq

/-- Events delivered to the application callback (lorawan_event_t). -/
inductive lorawan_event_t where
  | CONNECTED
  | DISCONNECTED
  | TX_DONE
  | TX_TIMEOUT
  | TX_ERROR
  | TX_CRYPTO_ERROR
  | TX_SCHEDULING_ERROR
  | RX_DONE
  | RX_TIMEOUT
  | RX_ERROR
  | JOIN_FAILURE
  | UPLINK_REQUIRED
  | AUTOMATIC_UPLINK_ERROR
  | CLASS_CHANGED
  | SERVER_ACCEPTED_CLASS_IN_USE
  | SERVER_DOES_NOT_SUPPORT_CLASS_IN_USE
  | DEVICE_TIME_SYNCHED
  | PING_SLOT_INFO_SYNCHED
  | BEACON_FOUND
  | BEACON_NOT_FOUND
  | BEACON_LOCK
  | BEACON_MISS
  | SWITCH_CLASS_B_TO_A
  | CRYPTO_ERROR
deriving DecidableEq

/-- Message-flag bit masks (MSG_UNCONFIRMED_FLAG and friends from
lorawan_types.h: four distinct bits inside MSG_FLAG_MASK). -/
def MSG_UNCONFIRMED_FLAG : Nat := 0x01

/-- Confirmed-message flag bit. -/
def MSG_CONFIRMED_FLAG : Nat := 0x02

/-- Multicast flag bit (downlink only). -/
def MSG_MULTICAST_FLAG : Nat := 0x04

/-- Proprietary-message flag bit. -/
def MSG_PROPRIETARY_FLAG : Nat := 0x08

/-- Mask selecting the four message-kind bits (LoRaWANStack.cpp). -/
def MSG_FLAG_MASK : Nat := 0x0F

/-- Compliance-testing port constant (LoRaWANStack.cpp). -/
def COMPLIANCE_TESTING_PORT : Nat := 224

/-- Invalid-port sentinel used for the constructor value of _app_port. -/
def INVALID_PORT : Nat := 0xFF

/-- Maximal accepted value for set_confirmed_msg_retry. -/
def MAX_CONFIRMED_MSG_RETRIES : Nat := 255

/-- Modelled from the spec: LORAWAN_DEFAULT_QOS is the compile-time default
QoS level configuration input (not under src/); the spec lists a default
QoS level among the configuration inputs, with default 1. -/
def LORAWAN_DEFAULT_QOS : Nat := 1

/-- Control-flag bits of the _ctrl_flags word, one named Boolean per bit
(the C code uses disjoint single-bit masks RETRY_EXHAUSTED_FLAG,
MSG_RECVD_FLAG, CONNECTED_FLAG, USING_OTAA_FLAG, TX_DONE_FLAG,
CONN_IN_PROGRESS_FLAG, REJOIN_IN_PROGRESS). -/
structure CtrlFlags where
  retry_exhausted : Bool
  msg_recvd : Bool
  connected : Bool
  using_otaa : Bool
  tx_done : Bool
  conn_in_progress : Bool
  rejoin_in_progress : Bool
deriving DecidableEq

/-- The all-zero flag word (IDLE_FLAG, and the assignment _ctrl_flags = 0). -/
def CtrlFlags.zero : CtrlFlags :=
  { retry_exhausted := false, msg_recvd := false, connected := false,
    using_otaa := false, tx_done := false, conn_in_progress := false,
    rejoin_in_progress := false }

/-- Session record (lorawan_session_t): activation status and counters. -/
structure lorawan_session where
  active : Bool
  uplink_counter : Nat
  downlink_counter : Nat
deriving DecidableEq

/-- Inbound message record _rx_msg with its embedded MCPS indication
fields (buffer contents stand for the MacOps-owned byte buffer; an empty
list models the NULL pointer the code stores after a complete read). -/
structure rx_message_t where
  receive_ready : Bool
  prev_read_size : Nat
  pending_size : Nat
  port : Nat
  type : mcps_type_t
  buffer : List Nat
  buffer_size : Nat
deriving DecidableEq

/-- TX metadata record with its freshness flag (lorawan_tx_metadata). -/
structure lorawan_tx_metadata where
  stale : Bool
  channel : Nat
  data_rate : Nat
  tx_power : Nat
  tx_toa : Nat
  nb_retries : Nat
deriving DecidableEq

/-- RX metadata record with its freshness flag (lorawan_rx_metadata). -/
structure lorawan_rx_metadata where
  stale : Bool
  rx_datarate : Nat
  rssi : Int
  snr : Int
  channel : Nat
  rx_toa : Nat
deriving DecidableEq

/-- State of the LoRaWANStack object: the C++ data members that the
modelled methods read or write.  The loramac_device_cls field mirrors the
device class held by the lower MAC (read through get_device_class and
written through set_device_class); the two timer-running Booleans mirror
the armed state of the forced-rejoin and type-0-rejoin timers; the two
callback Booleans record whether the application registered the events and
link_check_resp callbacks. -/
structure StackState where
  device_current_state : device_states_t
  lw_session : lorawan_session
  rx_msg : rx_message_t
  tx_metadata : lorawan_tx_metadata
  rx_metadata : lorawan_rx_metadata
  num_retry : Nat
  qos_cnt : Nat
  ctrl_flags : CtrlFlags
  app_port : Nat
  link_check_requested : Bool
  reset_ind_requested : Bool
  rekey_ind_needed : Bool
  rekey_ind_counter : Nat
  device_mode_ind_needed : Bool
  device_mode_ind_ongoing : Bool
  new_class_type : device_class_t
  automatic_uplink_ongoing : Bool
  rejoin_type1_send_period : Nat
  rejoin_type1_stamp : Nat
  rejoin_type0_counter : Nat
  forced_datarate : Nat
  forced_period : Nat
  forced_retry_count : Nat
  forced_rejoin_type : Nat
  forced_counter : Nat
  ping_slot_info_requested : Bool
  device_time_requested : Bool
  rx_payload_in_use : Bool
  forced_timer_running : Bool
  rejoin_type0_timer_running : Bool
  loramac_device_cls : device_class_t
  events_callback_set : Bool
  link_check_resp_set : Bool
deriving DecidableEq

/-- Oracle record: the values the controller reads from the lower MAC
(MacOps), from the random source, from the clock and from the compile-time
configuration during one modelled call. -/
structure MacEnv where
  server_type : server_type_t
  nwk_joined : Bool
  tx_ongoing : Bool
  req_type : mcps_type_t
  is_ack_recvd : Bool
  continue_sending : Bool
  continue_joining : Bool
  current_slot : rx_slot_t
  prev_qos_level : Nat
  qos_level : Nat
  mcps_ind_pending : Bool
  mlme_ind_pending : Bool
  mlme_ind_type : mlme_ind_t
  adr_ack_limit : Nat
  prepare_len : Nat
  send_ongoing_status : lorawan_status
  prepare_join_status : lorawan_status
  join_status : lorawan_status
  set_device_cls_status : lorawan_status
  rejoin_max_time : Nat
  rejoin_max_count : Nat
  rand_val : Nat
  current_time_ms : Nat
  cfg_version : lorawan_version_t
  cfg_automatic_uplink : Bool
  cfg_otaa : Bool
  conf_channel : Nat
  conf_data_rate : Nat
  conf_tx_power : Nat
  conf_tx_toa : Nat
  conf_nb_retries : Nat
  ind_rx_datarate : Nat
  ind_rssi : Int
  ind_snr : Int
  ind_channel : Nat
  ind_rx_toa : Nat
deriving DecidableEq

/-- Outward effects of one modelled controller call, in program order:
application events, MacOps invocations, timer operations, and calls
deferred onto the event queue.  Entries named stateControllerReq record a
direct dispatch into the status-check processor, which the surrounding
run interprets after the step. -/
inductive Effect where
  | appEvent (e : lorawan_event_t)
  | linkCheckResp (demod_margin : Nat) (nb_gateways : Nat)
  | macSetupResetIndication
  | macSetupRekeyIndication
  | macSetupDeviceModeIndication (c : device_class_t)
  | macSetupLinkCheckRequest
  | macSetupDeviceTimeRequest
  | macAddPingSlotInfoReq
  | macPrepareOngoingTx (port : Nat) (length : Nat) (flags : Nat) (num_retry : Nat)
  | macSetTxOngoing (b : Bool)
  | macOnRadioTxDone
  | macOnRadioRxDone
  | macOnRadioRxTimeout (is_timeout : Bool)
  | macPostProcessMcpsReq
  | macPostProcessMcpsInd
  | macPostProcessMlmeInd
  | macSetDeviceCls (c : device_class_t)
  | macJoin (is_otaa : Bool)
  | macRejoin (rejoin_type : Nat) (is_forced : Bool) (datarate : Nat)
  | macRemoveChannelPlan
  | macDisconnect
  | timerStartForced (period_ms : Nat)
  | timerStopForced
  | timerStartRejoinType0 (ms : Nat)
  | timerStopRejoinType0
  | stateControllerReq (s : device_states_t)
  | queueStateController (s : device_states_t)
  | queueProcessRejoin (rejoin_type : Nat) (is_forced : Bool)
  | queueProcessRejoinType0
  | queueSendAutomaticUplink (port : Nat)
deriving DecidableEq

/-- LoRaWANStack::convert_to_msg_flag: map an MCPS message kind to its
message-flag bit. -/
def convert_to_msg_flag (type : mcps_type_t) : Nat :=
  match type with
  | mcps_type_t.MCPS_UNCONFIRMED => MSG_UNCONFIRMED_FLAG
  | mcps_type_t.MCPS_CONFIRMED => MSG_CONFIRMED_FLAG
  | mcps_type_t.MCPS_MULTICAST => MSG_MULTICAST_FLAG
  | mcps_type_t.MCPS_PROPRIETARY => MSG_PROPRIETARY_FLAG

/-- LoRaWANStack::is_port_valid, compiled without LORAWAN_COMPLIANCE_TEST:
port 0 is governed by allow_port_0, the compliance port 224 is refused,
and every other port value falls into the final else branch and is
accepted. -/
def is_port_valid (port : Nat) (allow_port_0 : Bool) : Bool :=
  if port = 0 then allow_port_0
  else if port = COMPLIANCE_TESTING_PORT then false
  else true

/-- LoRaWANStack::set_application_port: record the port if valid,
otherwise report PORT_INVALID. -/
def set_application_port (st : StackState) (port : Nat) (allow_port_0 : Bool) :
    lorawan_status × StackState :=
  if is_port_valid port allow_port_0 then
    (lorawan_status.LORAWAN_STATUS_OK, { st with app_port := port })
  else
    (lorawan_status.LORAWAN_STATUS_PORT_INVALID, st)

/-- Successful result of LoRaWANStack::handle_rx: the bytes copied into
the application buffer and the port and flag values written back through
the reference parameters.  The returned int16_t of the C code is the
length of bytes. -/
structure HandleRxOk where
  bytes : List Nat
  out_port : Nat
  out_flags : Nat
deriving DecidableEq

/-- LoRaWANStack::handle_rx: cursor-driven drain of the single inbound
message.  data_null models a NULL data pointer; the three copy branches
mirror the source: whole-message copy when the first read fits the user
buffer, partial copy advancing the cursor when more bytes remain than fit,
and final copy of the remaining pending bytes. -/
def handle_rx (st : StackState) (data_null : Bool) (length : Nat)
    (port : Nat) (flags : Nat) (validate_params : Bool) :
    Except lorawan_status HandleRxOk × StackState :=
  if st.device_current_state = device_states_t.DEVICE_STATE_NOT_INITIALIZED then
    (Except.error lorawan_status.LORAWAN_STATUS_NOT_INITIALIZED, st)
  else if st.lw_session.active = false then
    (Except.error lorawan_status.LORAWAN_STATUS_NO_ACTIVE_SESSIONS, st)
  else if st.rx_msg.receive_ready = false then
    (Except.error lorawan_status.LORAWAN_STATUS_WOULD_BLOCK, st)
  else if data_null = true ∨ length = 0 then
    (Except.error lorawan_status.LORAWAN_STATUS_PARAMETER_INVALID, st)
  else
    let received_flags0 := convert_to_msg_flag st.rx_msg.type
    let received_flags :=
      if validate_params then received_flags0 &&& MSG_FLAG_MASK else received_flags0
    if validate_params ∧ (st.rx_msg.port ≠ port ∨ flags &&& received_flags = 0) then
      (Except.error lorawan_status.LORAWAN_STATUS_WOULD_BLOCK, st)
    else
      let m0 := st.rx_msg
      let m1 := if m0.pending_size = 0 then
          { m0 with pending_size := m0.buffer_size, prev_read_size := 0 }
        else m0
      if m1.prev_read_size = 0 ∧ m1.buffer_size ≤ length then
        let bytes := m1.buffer.take m1.buffer_size
        let m2 := { m1 with buffer := [], buffer_size := 0,
                            pending_size := 0, receive_ready := false }
        (Except.ok ⟨bytes, m1.port, received_flags⟩, { st with rx_msg := m2 })
      else if length < m1.pending_size then
        let bytes := (m1.buffer.drop m1.prev_read_size).take length
        let m2 := { m1 with pending_size := m1.pending_size - length,
                            prev_read_size := m1.prev_read_size + length }
        (Except.ok ⟨bytes, m1.port, received_flags⟩, { st with rx_msg := m2 })
      else
        let bytes := (m1.buffer.drop m1.prev_read_size).take m1.pending_size
        let m2 := { m1 with buffer := [], buffer_size := 0,
                            pending_size := 0, receive_ready := false }
        (Except.ok ⟨bytes, m1.port, received_flags⟩, { st with rx_msg := m2 })

/-- Iterate handle_rx over a list of application buffer sizes with fixed
requested port and flags and validate_params set, collecting the byte
chunks each call returns; iteration stops at the first error return. -/
def drain_rx (st : StackState) (port flags : Nat) :
    List Nat → List (List Nat) × StackState
  | [] => ([], st)
  | l :: ls =>
    match handle_rx st false l port flags true with
    | (Except.ok r, st1) =>
      let rest := drain_rx st1 port flags ls
      (r.bytes :: rest.1, rest.2)
    | (Except.error _, st1) => ([], st1)

/-- A fully populated state used to instantiate witnesses: an initialised,
ABP-connected idle stack with no pending message and stale metadata,
mirroring the constructor defaults where a field has one. -/
def base_state : StackState :=
  { device_current_state := device_states_t.DEVICE_STATE_IDLE
    lw_session := { active := true, uplink_counter := 0, downlink_counter := 0 }
    rx_msg := { receive_ready := false, prev_read_size := 0, pending_size := 0,
                port := 0, type := mcps_type_t.MCPS_UNCONFIRMED,
                buffer := [], buffer_size := 0 }
    tx_metadata := { stale := true, channel := 0, data_rate := 0, tx_power := 0,
                     tx_toa := 0, nb_retries := 0 }
    rx_metadata := { stale := true, rx_datarate := 0, rssi := 0, snr := 0,
                     channel := 0, rx_toa := 0 }
    num_retry := 1
    qos_cnt := 1
    ctrl_flags := { CtrlFlags.zero with connected := true }
    app_port := INVALID_PORT
    link_check_requested := false
    reset_ind_requested := false
    rekey_ind_needed := false
    rekey_ind_counter := 0
    device_mode_ind_needed := false
    device_mode_ind_ongoing := false
    new_class_type := device_class_t.CLASS_A
    automatic_uplink_ongoing := false
    rejoin_type1_send_period := 3600
    rejoin_type1_stamp := 0
    rejoin_type0_counter := 0
    forced_datarate := 0
    forced_period := 0
    forced_retry_count := 0
    forced_rejoin_type := 0
    forced_counter := 0
    ping_slot_info_requested := false
    device_time_requested := false
    rx_payload_in_use := false
    forced_timer_running := false
    rejoin_type0_timer_running := false
    loramac_device_cls := device_class_t.CLASS_A
    events_callback_set := true
    link_check_resp_set := false }

/-- A default oracle record for witnesses. -/
def base_env : MacEnv :=
  { server_type := server_type_t.LW1_0_2
    nwk_joined := true
    tx_ongoing := false
    req_type := mcps_type_t.MCPS_UNCONFIRMED
    is_ack_recvd := false
    continue_sending := false
    continue_joining := false
    current_slot := rx_slot_t.RX_SLOT_WIN_2
    prev_qos_level := 1
    qos_level := 1
    mcps_ind_pending := false
    mlme_ind_pending := false
    mlme_ind_type := mlme_ind_t.MLME_IND_OTHER
    adr_ack_limit := 64
    prepare_len := 0
    send_ongoing_status := lorawan_status.LORAWAN_STATUS_OK
    prepare_join_status := lorawan_status.LORAWAN_STATUS_OK
    join_status := lorawan_status.LORAWAN_STATUS_OK
    set_device_cls_status := lorawan_status.LORAWAN_STATUS_OK
    rejoin_max_time := 100
    rejoin_max_count := 16
    rand_val := 0
    current_time_ms := 0
    cfg_version := lorawan_version_t.LORAWAN_VERSION_1_0_2
    cfg_automatic_uplink := false
    cfg_otaa := false
    conf_channel := 0
    conf_data_rate := 0
    conf_tx_power := 0
    conf_tx_toa := 0
    conf_nb_retries := 0
    ind_rx_datarate := 0
    ind_rssi := 0
    ind_snr := 0
    ind_channel := 0
    ind_rx_toa := 0 }

/-- Claim C10: when no inbound message is pending on an initialised,
active session, handle_rx returns WOULD_BLOCK before validating the
buffer arguments, for every data pointer (including NULL) and every
length (including 0), and leaves the whole stack state unchanged. -/
theorem handle_rx_no_pending_would_block (st : StackState) (data_null : Bool)
    (length port flags : Nat) (validate_params : Bool)
    (hdev : st.device_current_state ≠ device_states_t.DEVICE_STATE_NOT_INITIALIZED)
    (hact : st.lw_session.active = true)
    (hready : st.rx_msg.receive_ready = false) :
    handle_rx st data_null length port flags validate_params =
      (Except.error lorawan_status.LORAWAN_STATUS_WOULD_BLOCK, st) := by
  unfold handle_rx
  simp [hdev, hact, hready]

/-- Witness for C10 at a concrete state, with a NULL data pointer and a
zero length. -/
theorem handle_rx_no_pending_would_block_witness :
    base_state.rx_msg.receive_ready = false ∧
    handle_rx base_state true 0 15 MSG_CONFIRMED_FLAG true =
      (Except.error lorawan_status.LORAWAN_STATUS_WOULD_BLOCK, base_state) :=
  ⟨by decide,
   handle_rx_no_pending_would_block base_state true 0 15 MSG_CONFIRMED_FLAG true
     (by decide) (by decide) (by decide)⟩

/-- Drain invariant for the inbound message: the message with the given
payload is pending on an initialised active session, with c bytes already
consumed; c = 0 corresponds to the fresh message (pending_size still 0,
as mcps_indication_handler leaves it), and 1 <= c < size corresponds to a
partially drained message with the cursor at c. -/
def RxInv (st : StackState) (payload : List Nat) (p : Nat) (t : mcps_type_t)
    (c : Nat) : Prop :=
  st.device_current_state ≠ device_states_t.DEVICE_STATE_NOT_INITIALIZED ∧
  st.lw_session.active = true ∧
  st.rx_msg.receive_ready = true ∧
  st.rx_msg.buffer = payload ∧
  st.rx_msg.buffer_size = payload.length ∧
  st.rx_msg.port = p ∧
  st.rx_msg.type = t ∧
  ((c = 0 ∧ st.rx_msg.pending_size = 0) ∨
   (1 ≤ c ∧ c < payload.length ∧ st.rx_msg.prev_read_size = c ∧
    st.rx_msg.pending_size = payload.length - c))

/-- State of the stack after the inbound message has been fully drained:
still initialised and active, but no message pending. -/
def RxDrained (st : StackState) : Prop :=
  st.device_current_state ≠ device_states_t.DEVICE_STATE_NOT_INITIALIZED ∧
  st.lw_session.active = true ∧
  st.rx_msg.receive_ready = false

/-- With no pending message, handle_rx returns WOULD_BLOCK and leaves the
state untouched. -/
theorem handle_rx_blocked (st : StackState) (data_null : Bool)
    (length port flags : Nat) (validate_params : Bool)
    (hdev : st.device_current_state ≠ device_states_t.DEVICE_STATE_NOT_INITIALIZED)
    (hact : st.lw_session.active = true)
    (hready : st.rx_msg.receive_ready = false) :
    handle_rx st data_null length port flags validate_params =
      (Except.error lorawan_status.LORAWAN_STATUS_WOULD_BLOCK, st) := by
  unfold handle_rx
  simp [hdev, hact, hready]

/-- One matching receive call on a partially drained pending message
returns the next min(length, remaining) payload bytes, reports the stored
port and masked flags, and either completes the drain (when it delivers
the final byte) or re-establishes the invariant with the cursor advanced
by the bytes returned. -/
theorem handle_rx_step (st : StackState) (payload : List Nat) (p : Nat)
    (t : mcps_type_t) (c l fl : Nat)
    (hinv : RxInv st payload p t c) (hl : 1 ≤ l) (hc : c < payload.length)
    (hfl : fl &&& (convert_to_msg_flag t &&& MSG_FLAG_MASK) ≠ 0) :
    ((handle_rx st false l p fl true).1 =
       Except.ok ⟨(payload.drop c).take (min l (payload.length - c)), p,
                  convert_to_msg_flag t &&& MSG_FLAG_MASK⟩)
  ∧ (payload.length ≤ c + l → RxDrained (handle_rx st false l p fl true).2)
  ∧ (c + l < payload.length →
       RxInv (handle_rx st false l p fl true).2 payload p t (c + l)) := by
  obtain ⟨hdev, hact, hready, hbuf, hsize, hport, htype, hcur⟩ := hinv
  have hl0 : l ≠ 0 := by omega
  rcases hcur with ⟨hc0, hpend⟩ | ⟨hc1, hcN, hprev, hpend⟩
  · subst hc0
    by_cases hfit : payload.length ≤ l
    · refine ⟨?_, ?_, ?_⟩
      · unfold handle_rx
        simp [hdev, hact, hready, hl0, hfl, hbuf, hsize, hport, htype, hpend,
              hfit, Nat.min_eq_right hfit]
      · intro _
        unfold handle_rx RxDrained
        simp [hdev, hact, hready, hl0, hfl, hbuf, hsize, hport, htype, hpend, hfit]
      · intro h
        omega
    · have hlt : l < payload.length := by omega
      refine ⟨?_, ?_, ?_⟩
      · unfold handle_rx
        simp [hdev, hact, hready, hl0, hfl, hbuf, hsize, hport, htype, hpend,
              hfit, hlt, Nat.min_eq_left (by omega : l ≤ payload.length - 0)]
      · intro h
        omega
      · intro h
        unfold handle_rx RxInv
        simp [hdev, hact, hready, hl0, hfl, hbuf, hsize, hport, htype, hpend,
              hfit, hlt]
        omega
  · have hpc : ¬(payload.length - c = 0) := by omega
    have hcne : ¬(c = 0) := by omega
    by_cases hmore : l < payload.length - c
    · refine ⟨?_, ?_, ?_⟩
      · unfold handle_rx
        simp [hdev, hact, hready, hl0, hfl, hbuf, hsize, hport, htype, hpc,
              hcne, hprev, hpend, hmore, Nat.min_eq_left (by omega : l ≤ payload.length - c)]
      · intro h
        omega
      · intro h
        unfold handle_rx RxInv
        simp [hdev, hact, hready, hl0, hfl, hbuf, hsize, hport, htype, hpc,
              hcne, hprev, hpend, hmore]
        omega
    · have hlast : payload.length - c ≤ l := by omega
      refine ⟨?_, ?_, ?_⟩
      · unfold handle_rx
        simp [hdev, hact, hready, hl0, hfl, hbuf, hsize, hport, htype, hpc,
              hcne, hprev, hpend, hmore, Nat.min_eq_right hlast]
      · intro _
        unfold handle_rx RxDrained
        simp [hdev, hact, hready, hl0, hfl, hbuf, hsize, hport, htype, hpc,
              hcne, hprev, hpend, hmore]
      · intro h
        omega

/-- After the message is drained, any further receive calls stop the drain
immediately and leave the state untouched. -/
theorem drain_rx_drained (st : StackState) (p fl : Nat) (ls : List Nat)
    (hdr : RxDrained st) : drain_rx st p fl ls = ([], st) := by
  cases ls with
  | nil => rfl
  | cons l ls =>
    obtain ⟨hdev, hact, hready⟩ := hdr
    simp [drain_rx, handle_rx_blocked st false l p fl true hdev hact hready]

/-- Iterated receive calls on a pending message with c bytes already
consumed deliver exactly the remaining payload bytes up to the total of
the requested lengths, and end drained exactly when the requested lengths
cover the remainder. -/
theorem drain_rx_go (payload : List Nat) (p : Nat) (t : mcps_type_t) (fl : Nat)
    (hfl : fl &&& (convert_to_msg_flag t &&& MSG_FLAG_MASK) ≠ 0) :
    ∀ (ls : List Nat) (st : StackState) (c : Nat),
      (∀ l ∈ ls, 1 ≤ l) → RxInv st payload p t c → c < payload.length →
      ((drain_rx st p fl ls).1.flatten =
          (payload.drop c).take (min (payload.length - c) ls.sum)) ∧
      (payload.length ≤ c + ls.sum → RxDrained (drain_rx st p fl ls).2) ∧
      (c + ls.sum < payload.length →
        RxInv (drain_rx st p fl ls).2 payload p t (c + ls.sum)) := by
  intro ls
  induction ls with
  | nil =>
    intro st c hpos hinv hc
    refine ⟨by simp [drain_rx], ?_, ?_⟩
    · intro h
      exfalso
      simp at h
      omega
    · intro _
      simpa [drain_rx] using hinv
  | cons l ls ih =>
    intro st c hpos hinv hc
    simp only [List.sum_cons]
    have hl : 1 ≤ l := hpos l (by simp)
    have hpos1 : ∀ x ∈ ls, 1 ≤ x := fun x hx => hpos x (by simp [hx])
    obtain ⟨h1, h2, h3⟩ := handle_rx_step st payload p t c l fl hinv hl hc hfl
    rcases hres : handle_rx st false l p fl true with ⟨res, st1⟩
    rw [hres] at h1 h2 h3
    simp only at h1 h2 h3
    subst h1
    have hdrain : drain_rx st p fl (l :: ls) =
        ((payload.drop c).take (min l (payload.length - c)) ::
           (drain_rx st1 p fl ls).1,
         (drain_rx st1 p fl ls).2) := by
      simp [drain_rx, hres]
    by_cases hfin : payload.length ≤ c + l
    · have hdr := h2 hfin
      have hstop := drain_rx_drained st1 p fl ls hdr
      refine ⟨?_, ?_, ?_⟩
      · rw [hdrain, hstop]
        have hm1 : min l (payload.length - c) = payload.length - c := by omega
        have hm2 : min (payload.length - c) (l + ls.sum) = payload.length - c := by
          omega
        simp [hm1, hm2]
      · intro _
        rw [hdrain, hstop]
        exact hdr
      · intro h
        exfalso
        omega
    · have hinv1 := h3 (by omega)
      obtain ⟨j1, j2, j3⟩ := ih st1 (c + l) hpos1 hinv1 (by omega)
      refine ⟨?_, ?_, ?_⟩
      · rw [hdrain]
        simp only [List.flatten_cons, j1]
        have hm1 : min l (payload.length - c) = l := by omega
        have hm2 : min (payload.length - c) (l + ls.sum) =
            l + min (payload.length - (c + l)) ls.sum := by omega
        rw [hm1, hm2, List.take_add]
        congr 1
        rw [List.drop_drop]
      · intro h
        rw [hdrain]
        exact j2 (by omega)
      · intro h
        rw [hdrain]
        have := j3 (by omega)
        have hx : c + l + ls.sum = c + (l + ls.sum) := by omega
        rwa [hx] at this

/-- Claim C1: for a received downlink payload pending in the inbound
message record and any sequence of receive calls with matching port and
flags (validate_params set) whose buffer lengths are positive and cover
the payload, handle_rx delivers bytes from offset 0, each prefix of calls
has delivered exactly min(payload length, total requested) bytes (so each
call advances the read cursor by the number of bytes it returned), the
concatenation of all returned byte ranges equals the original payload,
receive_ready is false after a prefix of calls exactly when that prefix
already covers the final byte, and a further call after the drain returns
WOULD_BLOCK. -/
theorem handle_rx_drain_delivers_payload (payload : List Nat) (p : Nat)
    (t : mcps_type_t) (fl : Nat) (ls : List Nat) (st : StackState)
    (hdev : st.device_current_state ≠ device_states_t.DEVICE_STATE_NOT_INITIALIZED)
    (hact : st.lw_session.active = true)
    (hready : st.rx_msg.receive_ready = true)
    (hbuf : st.rx_msg.buffer = payload)
    (hsize : st.rx_msg.buffer_size = payload.length)
    (hport : st.rx_msg.port = p)
    (htype : st.rx_msg.type = t)
    (hpend : st.rx_msg.pending_size = 0)
    (hfl : fl &&& (convert_to_msg_flag t &&& MSG_FLAG_MASK) ≠ 0)
    (hN : 1 ≤ payload.length)
    (hpos : ∀ l ∈ ls, 1 ≤ l)
    (hsum : payload.length ≤ ls.sum) :
    (drain_rx st p fl ls).1.flatten = payload ∧
    (∀ k, k ≤ ls.length →
      (((drain_rx st p fl (ls.take k)).2.rx_msg.receive_ready = false) ↔
        payload.length ≤ (ls.take k).sum) ∧
      ((drain_rx st p fl (ls.take k)).1.flatten).length =
        min payload.length (ls.take k).sum) ∧
    (handle_rx (drain_rx st p fl ls).2 false 1 p fl true).1 =
      Except.error lorawan_status.LORAWAN_STATUS_WOULD_BLOCK := by
  have hinv : RxInv st payload p t 0 :=
    ⟨hdev, hact, hready, hbuf, hsize, hport, htype, Or.inl ⟨rfl, hpend⟩⟩
  have hc : 0 < payload.length := hN
  obtain ⟨g1, g2, g3⟩ := drain_rx_go payload p t fl hfl ls st 0 hpos hinv hc
  refine ⟨?_, ?_, ?_⟩
  · rw [g1]
    have hm : min (payload.length - 0) ls.sum = payload.length := by omega
    simp [hm, hsum]
  · intro k hk
    have hposk : ∀ l ∈ ls.take k, 1 ≤ l := fun x hx =>
      hpos x (List.mem_of_mem_take hx)
    obtain ⟨p1, p2, p3⟩ := drain_rx_go payload p t fl hfl (ls.take k) st 0 hposk hinv hc
    by_cases hfin : payload.length ≤ (ls.take k).sum
    · have hdr := p2 (by omega)
      refine ⟨⟨fun _ => hfin, fun _ => hdr.2.2⟩, ?_⟩
      rw [p1]
      simp only [List.length_take, Nat.sub_zero, List.drop_zero]
      omega
    · have hinvk := p3 (by omega)
      have hrd : (drain_rx st p fl (ls.take k)).2.rx_msg.receive_ready = true :=
        hinvk.2.2.1
      refine ⟨iff_of_false (by simp [hrd]) hfin, ?_⟩
      rw [p1]
      simp only [List.length_take, Nat.sub_zero, List.drop_zero]
      omega
  · have hdr := g2 (by omega)
    rw [handle_rx_blocked (drain_rx st p fl ls).2 false 1 p fl true
      hdr.1 hdr.2.1 hdr.2.2]

/-- State with a fresh 3-byte downlink pending on port 7, used to
instantiate the drain theorem. -/
def rx_witness_state : StackState :=
  { base_state with rx_msg :=
      { receive_ready := true, prev_read_size := 0, pending_size := 0,
        port := 7, type := mcps_type_t.MCPS_UNCONFIRMED,
        buffer := [10, 20, 30], buffer_size := 3 } }

/-- Witness for C1: a 3-byte payload drained by two calls with buffer
sizes 2 and 5 yields the payload back, and one more call would block. -/
theorem handle_rx_drain_delivers_payload_witness :
    (drain_rx rx_witness_state 7 MSG_UNCONFIRMED_FLAG [2, 5]).1.flatten =
      [10, 20, 30] ∧
    (handle_rx (drain_rx rx_witness_state 7 MSG_UNCONFIRMED_FLAG [2, 5]).2
        false 1 7 MSG_UNCONFIRMED_FLAG true).1 =
      Except.error lorawan_status.LORAWAN_STATUS_WOULD_BLOCK := by
  have h := handle_rx_drain_delivers_payload [10, 20, 30] 7
    mcps_type_t.MCPS_UNCONFIRMED MSG_UNCONFIRMED_FLAG [2, 5] rx_witness_state
    (by decide) (by decide) (by decide) (by decide) (by decide) (by decide)
    (by decide) (by decide) (by decide) (by decide) (by decide) (by decide)
  exact ⟨h.1, h.2.2⟩

/-- Claim C2 (evaluation of the code at the claim boundary): with
allow_port_0 = false and compliance testing not compiled in,
is_port_valid rejects 0 and 224 and accepts 1..223 as the claim states,
but it also accepts every port in 225..255 through its final else branch
(so set_application_port returns OK for port 225), although the claim and
the send documentation in LoRaWANInterface.h require ports above 224 to
be rejected. -/
theorem is_port_valid_eval :
    is_port_valid 0 false = false ∧
    is_port_valid 0 true = true ∧
    is_port_valid 224 false = false ∧
    (∀ q : Fin 223, is_port_valid (q.val + 1) false = true) ∧
    is_port_valid 225 false = true ∧
    (∀ q : Fin 31, is_port_valid (225 + q.val) false = true) ∧
    (set_application_port base_state 225 false).1 =
      lorawan_status.LORAWAN_STATUS_OK := by
  decide

/-- The member initialisation performed by the LoRaWANStack constructor
(MBED_CONF_LORA_APP_PORT taken as undefined, so _app_port keeps
INVALID_PORT); value-initialised aggregate members start zeroed. -/
def stack_ctor : StackState :=
  { device_current_state := device_states_t.DEVICE_STATE_NOT_INITIALIZED
    lw_session := { active := false, uplink_counter := 0, downlink_counter := 0 }
    rx_msg := { receive_ready := false, prev_read_size := 0, pending_size := 0,
                port := 0, type := mcps_type_t.MCPS_UNCONFIRMED,
                buffer := [], buffer_size := 0 }
    tx_metadata := { stale := true, channel := 0, data_rate := 0, tx_power := 0,
                     tx_toa := 0, nb_retries := 0 }
    rx_metadata := { stale := true, rx_datarate := 0, rssi := 0, snr := 0,
                     channel := 0, rx_toa := 0 }
    num_retry := 1
    qos_cnt := 1
    ctrl_flags := CtrlFlags.zero
    app_port := INVALID_PORT
    link_check_requested := false
    reset_ind_requested := false
    rekey_ind_needed := false
    rekey_ind_counter := 0
    device_mode_ind_needed := false
    device_mode_ind_ongoing := false
    new_class_type := device_class_t.CLASS_A
    automatic_uplink_ongoing := false
    rejoin_type1_send_period := 3600
    rejoin_type1_stamp := 0
    rejoin_type0_counter := 0
    forced_datarate := 0
    forced_period := 0
    forced_retry_count := 0
    forced_rejoin_type := 0
    forced_counter := 0
    ping_slot_info_requested := false
    device_time_requested := false
    rx_payload_in_use := false
    forced_timer_running := false
    rejoin_type0_timer_running := false
    loramac_device_cls := device_class_t.CLASS_A
    events_callback_set := false
    link_check_resp_set := false }

/-- LoRaWANStack::make_tx_metadata_available: copy the MCPS confirmation
fields into the TX metadata record and clear its stale flag. -/
def make_tx_metadata_available (st : StackState) (env : MacEnv) : StackState :=
  { st with tx_metadata :=
      { stale := false, channel := env.conf_channel,
        data_rate := env.conf_data_rate, tx_power := env.conf_tx_power,
        tx_toa := env.conf_tx_toa, nb_retries := env.conf_nb_retries } }

/-- LoRaWANStack::make_rx_metadata_available: copy the MCPS indication
fields into the RX metadata record and clear its stale flag. -/
def make_rx_metadata_available (st : StackState) (env : MacEnv) : StackState :=
  { st with rx_metadata :=
      { stale := false, rx_datarate := env.ind_rx_datarate,
        rssi := env.ind_rssi, snr := env.ind_snr, channel := env.ind_channel,
        rx_toa := env.ind_rx_toa } }

/-- LoRaWANStack::acquire_tx_metadata: on a non-stale record return it and
set the stale flag; otherwise report METADATA_NOT_AVAILABLE. -/
def acquire_tx_metadata (st : StackState) :
    Except lorawan_status lorawan_tx_metadata × StackState :=
  if st.device_current_state = device_states_t.DEVICE_STATE_NOT_INITIALIZED then
    (Except.error lorawan_status.LORAWAN_STATUS_NOT_INITIALIZED, st)
  else if st.tx_metadata.stale = false then
    (Except.ok st.tx_metadata,
     { st with tx_metadata := { st.tx_metadata with stale := true } })
  else
    (Except.error lorawan_status.LORAWAN_STATUS_METADATA_NOT_AVAILABLE, st)

/-- LoRaWANStack::acquire_rx_metadata: RX analogue of acquire_tx_metadata. -/
def acquire_rx_metadata (st : StackState) :
    Except lorawan_status lorawan_rx_metadata × StackState :=
  if st.device_current_state = device_states_t.DEVICE_STATE_NOT_INITIALIZED then
    (Except.error lorawan_status.LORAWAN_STATUS_NOT_INITIALIZED, st)
  else if st.rx_metadata.stale = false then
    (Except.ok st.rx_metadata,
     { st with rx_metadata := { st.rx_metadata with stale := true } })
  else
    (Except.error lorawan_status.LORAWAN_STATUS_METADATA_NOT_AVAILABLE, st)

/-- Claim C9: the metadata records are read-consume.  The constructor
leaves both stale flags true; a read of a stale record reports
METADATA_NOT_AVAILABLE and changes nothing; a metadata write clears the
stale flag; the following read returns the stored record and re-sets the
stale flag, so the next read without an intervening write reports
METADATA_NOT_AVAILABLE again.  Stated for both the TX and the RX record. -/
theorem metadata_read_consume (st : StackState) (env : MacEnv)
    (hdev : st.device_current_state ≠ device_states_t.DEVICE_STATE_NOT_INITIALIZED) :
    (stack_ctor.tx_metadata.stale = true ∧ stack_ctor.rx_metadata.stale = true) ∧
    (st.tx_metadata.stale = true →
      acquire_tx_metadata st =
        (Except.error lorawan_status.LORAWAN_STATUS_METADATA_NOT_AVAILABLE, st)) ∧
    (st.rx_metadata.stale = true →
      acquire_rx_metadata st =
        (Except.error lorawan_status.LORAWAN_STATUS_METADATA_NOT_AVAILABLE, st)) ∧
    ((make_tx_metadata_available st env).tx_metadata.stale = false ∧
     (acquire_tx_metadata (make_tx_metadata_available st env)).1 =
       Except.ok (make_tx_metadata_available st env).tx_metadata ∧
     (acquire_tx_metadata
        (acquire_tx_metadata (make_tx_metadata_available st env)).2).1 =
       Except.error lorawan_status.LORAWAN_STATUS_METADATA_NOT_AVAILABLE) ∧
    ((make_rx_metadata_available st env).rx_metadata.stale = false ∧
     (acquire_rx_metadata (make_rx_metadata_available st env)).1 =
       Except.ok (make_rx_metadata_available st env).rx_metadata ∧
     (acquire_rx_metadata
        (acquire_rx_metadata (make_rx_metadata_available st env)).2).1 =
       Except.error lorawan_status.LORAWAN_STATUS_METADATA_NOT_AVAILABLE) := by
  refine ⟨⟨rfl, rfl⟩, ?_, ?_, ?_, ?_⟩
  · intro hstale
    unfold acquire_tx_metadata
    simp [hdev, hstale]
  · intro hstale
    unfold acquire_rx_metadata
    simp [hdev, hstale]
  · refine ⟨rfl, ?_, ?_⟩
    · unfold acquire_tx_metadata make_tx_metadata_available
      simp [hdev]
    · unfold acquire_tx_metadata make_tx_metadata_available
      simp [hdev]
  · refine ⟨rfl, ?_, ?_⟩
    · unfold acquire_rx_metadata make_rx_metadata_available
      simp [hdev]
    · unfold acquire_rx_metadata make_rx_metadata_available
      simp [hdev]

/-- Witness for C9 at a concrete state and confirmation values. -/
theorem metadata_read_consume_witness :
    base_state.tx_metadata.stale = true ∧
    acquire_tx_metadata base_state =
      (Except.error lorawan_status.LORAWAN_STATUS_METADATA_NOT_AVAILABLE,
       base_state) ∧
    (acquire_tx_metadata (make_tx_metadata_available base_state base_env)).1 =
      Except.ok (make_tx_metadata_available base_state base_env).tx_metadata := by
  have h := metadata_read_consume base_state base_env (by decide)
  exact ⟨by decide, h.2.1 (by decide), h.2.2.2.1.2.1⟩

/-- Offset in seconds between the Unix epoch (1970) and the GPS epoch
(1980-01-06): the UNIX_GPS_EPOCH_DIFF constant the facade adds. -/
def UNIX_GPS_EPOCH_DIFF : Nat := 315964800

/-- LoRaWANInterface::set_system_time_utc: wall_clock is the value the
pre-read time(NULL) call returned and cur_gps_time the cached GPS time in
milliseconds read through get_current_gps_time.  The result carries the
status and the value handed to set_time (none when set_time is never
reached).  The intermediate u_time lives in the 32-bit unsigned
lorawan_time_t, hence the reductions modulo 2 to the 32; the subtraction
of 19 is computed in unsigned int arithmetic. -/
def set_system_time_utc (wall_clock : Nat) (tai_utc_diff : Nat)
    (cur_gps_time : Nat) : lorawan_status × Option Nat :=
  let u_time0 := (wall_clock + UNIX_GPS_EPOCH_DIFF) % 2 ^ 32
  let u_time1 := (u_time0 + (tai_utc_diff + 2 ^ 32 - 19) % 2 ^ 32) % 2 ^ 32
  if cur_gps_time = 0 then
    (lorawan_status.LORAWAN_STATUS_SERVICE_UNKNOWN, none)
  else
    let gps_seconds := (cur_gps_time / 1000) % 2 ^ 32
    let gps_millis := cur_gps_time % 1000
    let gps_seconds1 :=
      if 500 ≤ gps_millis then (gps_seconds + 1) % 2 ^ 32 else gps_seconds
    (lorawan_status.LORAWAN_STATUS_OK, some ((u_time1 + gps_seconds1) % 2 ^ 32))

/-- Claim C8: with the cached GPS time unset (zero) the call reports
SERVICE_UNKNOWN and never writes the system time; otherwise, in the
non-overflowing regime, the written system time is the pre-read wall
clock plus 315964800 plus (tai_utc_diff - 19) plus the GPS milliseconds
rounded to the nearest second (rounding up from a remainder of at least
500). -/
theorem set_system_time_utc_spec (wall_clock tai_utc_diff cur_gps_time : Nat)
    (h19 : 19 ≤ tai_utc_diff)
    (hbound : wall_clock + UNIX_GPS_EPOCH_DIFF + (tai_utc_diff - 19) +
      (cur_gps_time / 1000 + 1) < 2 ^ 32) :
    (cur_gps_time = 0 → set_system_time_utc wall_clock tai_utc_diff cur_gps_time =
      (lorawan_status.LORAWAN_STATUS_SERVICE_UNKNOWN, none)) ∧
    (cur_gps_time ≠ 0 → set_system_time_utc wall_clock tai_utc_diff cur_gps_time =
      (lorawan_status.LORAWAN_STATUS_OK,
       some (wall_clock + UNIX_GPS_EPOCH_DIFF + (tai_utc_diff - 19) +
         (cur_gps_time / 1000 +
          if 500 ≤ cur_gps_time % 1000 then 1 else 0)))) := by
  unfold set_system_time_utc UNIX_GPS_EPOCH_DIFF at *
  constructor
  · intro h0
    simp [h0]
  · intro h0
    have hm1 : (tai_utc_diff + 2 ^ 32 - 19) % 2 ^ 32 = tai_utc_diff - 19 := by
      have : tai_utc_diff + 2 ^ 32 - 19 = (tai_utc_diff - 19) + 1 * 2 ^ 32 := by
        omega
      rw [this, Nat.add_mul_mod_self_right]
      exact Nat.mod_eq_of_lt (by omega)
    have hw : (wall_clock + 315964800) % 2 ^ 32 = wall_clock + 315964800 :=
      Nat.mod_eq_of_lt (by omega)
    have hs : (cur_gps_time / 1000) % 2 ^ 32 = cur_gps_time / 1000 :=
      Nat.mod_eq_of_lt (by omega)
    simp only [h0, if_false]
    by_cases hr : 500 ≤ cur_gps_time % 1000
    · simp only [hr, if_true, hm1, hw, hs]
      rw [Nat.mod_eq_of_lt (by omega), Nat.mod_eq_of_lt (by omega),
          Nat.mod_eq_of_lt (by omega)]
    · simp only [hr, if_false, hm1, hw, hs]
      rw [Nat.mod_eq_of_lt (by omega), Nat.mod_eq_of_lt (by omega)]
      norm_num

/-- Witness for C8 at the end-to-end scenario of the spec: GPS time
1234567890500 ms and tai_utc_diff 37, with a wall clock of 1000000 s. -/
theorem set_system_time_utc_spec_witness :
    set_system_time_utc 1000000 37 1234567890500 =
      (lorawan_status.LORAWAN_STATUS_OK,
       some (1000000 + 315964800 + 18 + 1234567891)) := by
  have h := (set_system_time_utc_spec 1000000 37 1234567890500 (by norm_num)
    (by norm_num [UNIX_GPS_EPOCH_DIFF])).2 (by norm_num)
  rw [h]
  norm_num [UNIX_GPS_EPOCH_DIFF]

/-- Rejoin request type codes carried in ForceRejoinReq (LW1.1 types
0, 1 and 2; join_req_type_t). -/
def REJOIN_REQUEST_TYPE0 : Nat := 0

/-- Rejoin request type 1. -/
def REJOIN_REQUEST_TYPE1 : Nat := 1

/-- Rejoin request type 2. -/
def REJOIN_REQUEST_TYPE2 : Nat := 2

/-- MLME confirmation record (loramac_mlme_confirm_t), restricted to the
fields mlme_confirm_handler reads. -/
structure loramac_mlme_confirm_t where
  type : mlme_type_t
  status : loramac_event_info_status_t
  demod_margin : Nat
  nb_gateways : Nat
  classType : device_class_t
  rejoin_type : Nat
  datarate : Nat
  period : Nat
  max_retries : Nat
deriving DecidableEq

/-- LoRaWANStack::send_event_to_application: post the event to the
application callback when one is registered. -/
def send_event_to_application (st : StackState) (e : lorawan_event_t) :
    List Effect :=
  if st.events_callback_set then [Effect.appEvent e] else []

/-- LoRaWANStack::process_connected_state: mark the connection
established, activate the session, emit CONNECTED and settle in Idle. -/
def process_connected_state (st : StackState) : StackState × List Effect :=
  let f1 := { st.ctrl_flags with connected := true, conn_in_progress := false }
  let st1 := { st with ctrl_flags := f1,
                       lw_session := { st.lw_session with active := true } }
  ({ st1 with device_current_state := device_states_t.DEVICE_STATE_IDLE },
   send_event_to_application st1 lorawan_event_t.CONNECTED)

/-- LoRaWANStack::process_joining_state: from Connecting, move to Joining
and issue the join; from AwaitingJoinAccept outside RX1, retry through
continue_joining_process or abandon with JOIN_FAILURE.  The status result
models the op_status reference, initialised to OK by state_controller. -/
def process_joining_state (st : StackState) (env : MacEnv) :
    lorawan_status × StackState × List Effect :=
  if st.device_current_state = device_states_t.DEVICE_STATE_CONNECTING then
    (env.join_status,
     { st with device_current_state := device_states_t.DEVICE_STATE_JOINING },
     [Effect.macJoin true])
  else if st.device_current_state = device_states_t.DEVICE_STATE_AWAITING_JOIN_ACCEPT ∧
      env.current_slot ≠ rx_slot_t.RX_SLOT_WIN_1 then
    let st1 := { st with device_current_state := device_states_t.DEVICE_STATE_JOINING }
    if env.continue_joining then
      (lorawan_status.LORAWAN_STATUS_OK, st1, [])
    else
      (lorawan_status.LORAWAN_STATUS_OK,
       { st1 with
         ctrl_flags := { st1.ctrl_flags with conn_in_progress := false },
         device_current_state := device_states_t.DEVICE_STATE_IDLE },
       send_event_to_application st1 lorawan_event_t.JOIN_FAILURE)
  else
    (lorawan_status.LORAWAN_STATUS_OK, st, [])

/-- LoRaWANStack::process_connecting_state: the MBED_ASSERT in the source
admits both Idle and Shutdown as entry states (and compiles away in
release builds); the state moves to Connecting, then OTAA continues into
the joining processor while ABP joins immediately and completes the
connection synchronously. -/
def process_connecting_state (st : StackState) (env : MacEnv) :
    lorawan_status × StackState × List Effect :=
  let st1 := { st with device_current_state := device_states_t.DEVICE_STATE_CONNECTING }
  if st1.ctrl_flags.using_otaa then
    process_joining_state st1 env
  else
    let r := process_connected_state st1
    (env.join_status, r.1, Effect.macJoin false :: r.2)

/-- LoRaWANStack::handle_connect: raise ConnectInProgress, set or clear
UsingOtaa (zeroing the frame counters for OTAA, requesting ResetInd for
ABP under LoRaWAN 1.1), then dispatch into the connecting state. -/
def handle_connect (st : StackState) (env : MacEnv) (is_otaa : Bool) :
    lorawan_status × StackState × List Effect :=
  let st1 := { st with ctrl_flags := { st.ctrl_flags with conn_in_progress := true } }
  let st2 :=
    if is_otaa then
      let s1 := { st1.lw_session with downlink_counter := 0, uplink_counter := 0 }
      { st1 with lw_session := s1,
                 ctrl_flags := { st1.ctrl_flags with using_otaa := true } }
    else
      let st1a := if env.cfg_version = lorawan_version_t.LORAWAN_VERSION_1_1 then
          { st1 with reset_ind_requested := true } else st1
      { st1a with ctrl_flags := { st1a.ctrl_flags with using_otaa := false } }
  process_connecting_state st2 env

/-- LoRaWANStack::connect (default-configuration overload): refuse when
uninitialised, busy while a connection is in progress, already-connected
when connected; otherwise prepare the join in the MAC and proceed through
handle_connect with the configured activation mode. -/
def connect (st : StackState) (env : MacEnv) :
    lorawan_status × StackState × List Effect :=
  if st.device_current_state = device_states_t.DEVICE_STATE_NOT_INITIALIZED then
    (lorawan_status.LORAWAN_STATUS_NOT_INITIALIZED, st, [])
  else if st.ctrl_flags.conn_in_progress then
    (lorawan_status.LORAWAN_STATUS_BUSY, st, [])
  else if st.ctrl_flags.connected then
    (lorawan_status.LORAWAN_STATUS_ALREADY_CONNECTED, st, [])
  else if env.prepare_join_status ≠ lorawan_status.LORAWAN_STATUS_OK then
    (env.prepare_join_status, st, [])
  else
    handle_connect st env env.cfg_otaa

/-- LoRaWANStack::process_shutdown_state: drop the channel plan,
disconnect the MAC, deactivate the session, move to Shutdown, zero every
control flag, report DEVICE_OFF and emit DISCONNECTED. -/
def process_shutdown_state (st : StackState) :
    lorawan_status × StackState × List Effect :=
  let fx1 :=
    if st.device_current_state = device_states_t.DEVICE_STATE_NOT_INITIALIZED then
      ([] : List Effect)
    else [Effect.macRemoveChannelPlan]
  let st1 := { st with
    lw_session := { st.lw_session with active := false },
    device_current_state := device_states_t.DEVICE_STATE_SHUTDOWN,
    ctrl_flags := CtrlFlags.zero }
  (lorawan_status.LORAWAN_STATUS_DEVICE_OFF, st1,
   fx1 ++ [Effect.macDisconnect] ++
     send_event_to_application st1 lorawan_event_t.DISCONNECTED)

/-- LoRaWANStack::process_rejoin: under a 1.1 server, issue the rejoin at
the forced data rate; for type 0 also restart the type-0 timer with the
MAC-provided max_time (converted to milliseconds) and reset the type-0
counter. -/
def process_rejoin (st : StackState) (env : MacEnv) (rejoin_type : Nat)
    (is_forced : Bool) : StackState × List Effect :=
  if env.server_type = server_type_t.LW1_1 then
    let fx := [Effect.macRejoin rejoin_type is_forced st.forced_datarate]
    if rejoin_type = REJOIN_REQUEST_TYPE0 then
      let st1 := { st with rejoin_type0_timer_running := true,
                           rejoin_type0_counter := 0 }
      (st1, fx ++ [Effect.timerStopRejoinType0,
                   Effect.timerStartRejoinType0 (env.rejoin_max_time * 1000)])
    else (st, fx)
  else (st, [])

/-- LoRaWANStack::reset_forced_rejoin: clear the attempt counter and stop
the forced-rejoin timer. -/
def reset_forced_rejoin (st : StackState) : StackState × List Effect :=
  ({ st with forced_counter := 0, forced_timer_running := false },
   [Effect.timerStopForced])

/-- LoRaWANStack::forced_timer_expiry: under a 1.1 server, run another
forced rejoin and re-arm the timer while the attempt counter is below the
stored retry count, otherwise reset the forced-rejoin machinery.  The
source never increments _forced_counter anywhere. -/
def forced_timer_expiry (st : StackState) (env : MacEnv) :
    StackState × List Effect :=
  if env.server_type = server_type_t.LW1_1 then
    if st.forced_counter < st.forced_retry_count then
      let r := process_rejoin st env st.forced_rejoin_type true
      ({ r.1 with forced_timer_running := true },
       r.2 ++ [Effect.timerStartForced r.1.forced_period])
    else
      reset_forced_rejoin st
  else (st, [])

/-- LoRaWANStack::process_rejoin_type0 (timer callback): run a non-forced
type-0 rejoin under a 1.1 server. -/
def process_rejoin_type0 (st : StackState) (env : MacEnv) :
    StackState × List Effect :=
  if env.server_type = server_type_t.LW1_1 then
    process_rejoin st env REJOIN_REQUEST_TYPE0 false
  else (st, [])

/-- LoRaWANStack::mlme_confirm_handler: dispatch on the confirmation
kind.  In the JOIN_ACCEPT OK branch under LW1.1 the source deliberately
leaves the forced-rejoin timers running (a rejoin type 1 accept may come
from a different server); the FORCE_REJOIN branch stores the mandated
data rate, computes the retry period as ((2 to the period) * 32 +
rand mod 33) * 1000 ms, bumps a nonzero retry count by one, rewrites
type 1 to type 0, resets the forced machinery, runs one immediate rejoin
and arms the forced timer when the retry count is nonzero. -/
def mlme_confirm_handler (st : StackState) (env : MacEnv)
    (m : loramac_mlme_confirm_t) : StackState × List Effect :=
  match m.type with
  | mlme_type_t.MLME_LINK_CHECK =>
    if m.status = loramac_event_info_status_t.LORAMAC_EVENT_INFO_STATUS_OK ∧
        st.link_check_resp_set then
      (st, [Effect.linkCheckResp m.demod_margin m.nb_gateways])
    else (st, [])
  | mlme_type_t.MLME_RESET => ({ st with reset_ind_requested := false }, [])
  | mlme_type_t.MLME_REKEY =>
    ({ st with rekey_ind_needed := false, rekey_ind_counter := 0 }, [])
  | mlme_type_t.MLME_DEVICE_MODE =>
    let st1 := { st with device_mode_ind_needed := false }
    if st1.loramac_device_cls = m.classType then
      (st1, send_event_to_application st1 lorawan_event_t.SERVER_ACCEPTED_CLASS_IN_USE)
    else
      (st1, send_event_to_application st1
        lorawan_event_t.SERVER_DOES_NOT_SUPPORT_CLASS_IN_USE)
  | mlme_type_t.MLME_JOIN_ACCEPT =>
    match m.status with
    | loramac_event_info_status_t.LORAMAC_EVENT_INFO_STATUS_OK =>
      let (st1, fx1) :=
        if env.server_type = server_type_t.LW1_1 then
          ({ st with rekey_ind_needed := true, rekey_ind_counter := 0 },
           ([] : List Effect))
        else
          ({ st with forced_timer_running := false,
                     rejoin_type0_timer_running := false },
           [Effect.timerStopForced, Effect.timerStopRejoinType0])
      let r := process_connected_state st1
      (r.1, fx1 ++ r.2)
    | loramac_event_info_status_t.LORAMAC_EVENT_INFO_STATUS_CRYPTO_FAIL =>
      let st1 := { st with device_current_state := device_states_t.DEVICE_STATE_IDLE }
      (st1, send_event_to_application st1 lorawan_event_t.CRYPTO_ERROR)
    | _ =>
      if env.server_type = server_type_t.LW1_1 ∧ st.ctrl_flags.rejoin_in_progress then
        (st, [])
      else
        let st1 := { st with device_current_state :=
            device_states_t.DEVICE_STATE_AWAITING_JOIN_ACCEPT }
        let r := process_joining_state st1 env
        (r.2.1, r.2.2)
  | mlme_type_t.MLME_FORCE_REJOIN =>
    if m.rejoin_type ≤ REJOIN_REQUEST_TYPE2 ∧
        env.server_type = server_type_t.LW1_1 then
      let rc0 := m.max_retries
      let rc := if rc0 ≠ 0 then rc0 + 1 else rc0
      let rt := if m.rejoin_type = REJOIN_REQUEST_TYPE1 then REJOIN_REQUEST_TYPE0
                else m.rejoin_type
      let st1 := { st with forced_datarate := m.datarate,
                           forced_period :=
                             (2 ^ m.period * 32 + env.rand_val % 33) * 1000,
                           forced_retry_count := rc,
                           forced_rejoin_type := rt }
      let r2 := reset_forced_rejoin st1
      let r3 := process_rejoin r2.1 env rt true
      if rc ≠ 0 then
        ({ r3.1 with forced_timer_running := true },
         r2.2 ++ r3.2 ++ [Effect.timerStartForced r3.1.forced_period])
      else (r3.1, r2.2 ++ r3.2)
    else (st, [])
  | mlme_type_t.MLME_PING_SLOT_INFO =>
    if st.ping_slot_info_requested then
      let st1 := { st with ping_slot_info_requested := false }
      (st1, send_event_to_application st1 lorawan_event_t.PING_SLOT_INFO_SYNCHED)
    else (st, [])
  | mlme_type_t.MLME_BEACON_ACQUISITION =>
    if m.status = loramac_event_info_status_t.LORAMAC_EVENT_INFO_STATUS_OK then
      (st, send_event_to_application st lorawan_event_t.BEACON_FOUND)
    else
      (st, send_event_to_application st lorawan_event_t.BEACON_NOT_FOUND)

/-- LoRaWANStack::set_device_class (spelled set_device_cls here): under a
1.1 server a change to a non-B class only records the target class and
raises the DeviceModeInd flags; otherwise the class change is handed to
the MAC immediately. -/
def set_device_cls (st : StackState) (env : MacEnv) (dc : device_class_t) :
    lorawan_status × StackState × List Effect :=
  if st.device_current_state = device_states_t.DEVICE_STATE_NOT_INITIALIZED then
    (lorawan_status.LORAWAN_STATUS_NOT_INITIALIZED, st, [])
  else if st.loramac_device_cls = dc then
    (lorawan_status.LORAWAN_STATUS_OK, st, [])
  else if env.server_type = server_type_t.LW1_1 ∧ dc ≠ device_class_t.CLASS_B then
    (lorawan_status.LORAWAN_STATUS_OK,
     { st with new_class_type := dc, device_mode_ind_needed := true,
               device_mode_ind_ongoing := true }, [])
  else
    (env.set_device_cls_status,
     { st with loramac_device_cls := dc }, [Effect.macSetDeviceCls dc])

/-- LoRaWANStack::process_transmission: refresh the TX metadata, advance
Joining to AwaitingJoinAccept and Sending to AwaitingAck (confirmed),
forward tx_done to the MAC, and, when a DeviceModeInd is ongoing under a
1.1 server, hand the new class to the MAC and emit CLASS_CHANGED. -/
def process_transmission (st : StackState) (env : MacEnv) :
    StackState × List Effect :=
  let st1 := make_tx_metadata_available st env
  let st2 :=
    if st1.device_current_state = device_states_t.DEVICE_STATE_JOINING then
      { st1 with device_current_state :=
          device_states_t.DEVICE_STATE_AWAITING_JOIN_ACCEPT }
    else st1
  let st3 :=
    if st2.device_current_state = device_states_t.DEVICE_STATE_SENDING ∧
        env.req_type = mcps_type_t.MCPS_CONFIRMED then
      { st2 with device_current_state := device_states_t.DEVICE_STATE_AWAITING_ACK }
    else st2
  if env.server_type = server_type_t.LW1_1 ∧ st3.device_mode_ind_ongoing then
    let st4 := { st3 with device_mode_ind_ongoing := false,
                          loramac_device_cls := st3.new_class_type }
    (st4, Effect.macOnRadioTxDone :: Effect.macSetDeviceCls st3.new_class_type ::
      send_event_to_application st4 lorawan_event_t.CLASS_CHANGED)
  else (st3, [Effect.macOnRadioTxDone])

/-- Oracle with a LoRaWAN 1.1 server. -/
def envLW11 : MacEnv := { base_env with server_type := server_type_t.LW1_1 }

/-- A DeviceModeConf (MLME_DEVICE_MODE) confirmation carrying Class C. -/
def device_mode_conf : loramac_mlme_confirm_t :=
  { type := mlme_type_t.MLME_DEVICE_MODE
    status := loramac_event_info_status_t.LORAMAC_EVENT_INFO_STATUS_OK
    demod_margin := 0
    nb_gateways := 0
    classType := device_class_t.CLASS_C
    rejoin_type := 0
    datarate := 0
    period := 0
    max_retries := 0 }

/-- Claim C3 counterexample: under a 1.1 server, after a set_device_class
request to Class C the very next process_transmission (the tx_done of the
uplink that carries DeviceModeInd) already swaps the device class to C
and already emits CLASS_CHANGED, although no DeviceModeConf
(MLME_DEVICE_MODE) has been processed anywhere in this trace; so the
claim that the class changes only after the DeviceModeConf answer, never
before, is false on the code. -/
theorem class_change_before_device_mode_conf :
    ((set_device_cls base_state envLW11 device_class_t.CLASS_C).2.1).loramac_device_cls =
      device_class_t.CLASS_A ∧
    (process_transmission
        (set_device_cls base_state envLW11 device_class_t.CLASS_C).2.1
        envLW11).1.loramac_device_cls = device_class_t.CLASS_C ∧
    Effect.appEvent lorawan_event_t.CLASS_CHANGED ∈
      (process_transmission
        (set_device_cls base_state envLW11 device_class_t.CLASS_C).2.1
        envLW11).2 := by
  decide

/-- Claim C3 (amended): in LoRaWAN 1.1, a set_device_class request to a
non-B class different from the current one changes nothing at request
time beyond recording the target class and raising the DeviceModeInd
flags (the device stays in its previous class while DeviceModeInd is
piggybacked); the actual class swap and the CLASS_CHANGED event happen
when the next uplink transmission completes (process_transmission), not
after DeviceModeConf; the MLME_DEVICE_MODE confirm never changes the
class and never emits CLASS_CHANGED (it clears the indication-needed flag
and reports SERVER_ACCEPTED_CLASS_IN_USE or
SERVER_DOES_NOT_SUPPORT_CLASS_IN_USE). -/
theorem device_mode_ind_class_change_at_tx (st st1 : StackState) (env : MacEnv)
    (dc : device_class_t) (m : loramac_mlme_confirm_t)
    (hinit : st.device_current_state ≠ device_states_t.DEVICE_STATE_NOT_INITIALIZED)
    (hsrv : env.server_type = server_type_t.LW1_1)
    (hne : st.loramac_device_cls ≠ dc)
    (hnb : dc ≠ device_class_t.CLASS_B)
    (hm : m.type = mlme_type_t.MLME_DEVICE_MODE)
    (hst1 : st1 = (set_device_cls st env dc).2.1) :
    (set_device_cls st env dc).1 = lorawan_status.LORAWAN_STATUS_OK ∧
    st1.loramac_device_cls = st.loramac_device_cls ∧
    st1.device_mode_ind_needed = true ∧
    st1.device_mode_ind_ongoing = true ∧
    st1.new_class_type = dc ∧
    (set_device_cls st env dc).2.2 = [] ∧
    (process_transmission st1 env).1.loramac_device_cls = dc ∧
    (st.events_callback_set = true →
      Effect.appEvent lorawan_event_t.CLASS_CHANGED ∈
        (process_transmission st1 env).2) ∧
    (∀ s : StackState,
      (mlme_confirm_handler s env m).1.loramac_device_cls =
        s.loramac_device_cls) ∧
    (∀ s : StackState,
      Effect.appEvent lorawan_event_t.CLASS_CHANGED ∉
        (mlme_confirm_handler s env m).2) := by
  have hcls : (set_device_cls st env dc) =
      (lorawan_status.LORAWAN_STATUS_OK,
       { st with new_class_type := dc, device_mode_ind_needed := true,
                 device_mode_ind_ongoing := true }, []) := by
    unfold set_device_cls
    simp [hinit, hne, hsrv, hnb]
  subst hst1
  rw [hcls]
  refine ⟨rfl, rfl, rfl, rfl, rfl, rfl, ?_, ?_, ?_, ?_⟩
  · unfold process_transmission make_tx_metadata_available
    simp only [hsrv]
    split
    · split
      · simp
      · simp
    · split
      · simp
      · simp
  · intro hcb
    unfold process_transmission make_tx_metadata_available
      send_event_to_application
    simp only [hsrv]
    split
    · split
      · simp [hcb]
      · simp [hcb]
    · split
      · simp [hcb]
      · simp [hcb]
  · intro s
    obtain ⟨mt, ms, md, mn, mc, mrt, mdr, mp, mm⟩ := m
    simp only at hm
    subst hm
    simp only [mlme_confirm_handler]
    split <;> simp [send_event_to_application]
  · intro s
    obtain ⟨mt, ms, md, mn, mc, mrt, mdr, mp, mm⟩ := m
    simp only at hm
    subst hm
    simp only [mlme_confirm_handler]
    split <;> simp [send_event_to_application]

/-- Witness for C3 (amended) at a concrete state, target Class C and a
1.1 oracle. -/
theorem device_mode_ind_class_change_at_tx_witness :
    ((set_device_cls base_state envLW11 device_class_t.CLASS_C).2.1).loramac_device_cls =
      base_state.loramac_device_cls ∧
    (process_transmission
        (set_device_cls base_state envLW11 device_class_t.CLASS_C).2.1
        envLW11).1.loramac_device_cls = device_class_t.CLASS_C ∧
    Effect.appEvent lorawan_event_t.CLASS_CHANGED ∉
      (mlme_confirm_handler base_state envLW11 device_mode_conf).2 := by
  have h := device_mode_ind_class_change_at_tx base_state _ envLW11
    device_class_t.CLASS_C device_mode_conf (by decide) (by decide) (by decide)
    (by decide) (by decide) rfl
  exact ⟨h.2.1, h.2.2.2.2.2.2.1, h.2.2.2.2.2.2.2.2.2 base_state⟩

/-- LoRaWANStack::state_machine_run_to_completion: Class C devices settle
back into Receiving, everything else into Idle. -/
def state_machine_run_to_completion (st : StackState) : StackState :=
  if st.loramac_device_cls = device_class_t.CLASS_C then
    { st with device_current_state := device_states_t.DEVICE_STATE_RECEIVING }
  else
    { st with device_current_state := device_states_t.DEVICE_STATE_IDLE }

/-- LoRaWANStack::process_scheduling_state: refuse with BUSY outside Idle
unless the device is Receiving in Class C; otherwise hand the staged
message to the MAC and on success clear TxDone, mark tx ongoing and move
to Sending. -/
def process_scheduling_state (st : StackState) (env : MacEnv) :
    lorawan_status × StackState × List Effect :=
  if st.device_current_state ≠ device_states_t.DEVICE_STATE_IDLE ∧
      (st.device_current_state ≠ device_states_t.DEVICE_STATE_RECEIVING ∧
       st.loramac_device_cls ≠ device_class_t.CLASS_C) then
    (lorawan_status.LORAWAN_STATUS_BUSY, st, [])
  else if env.send_ongoing_status = lorawan_status.LORAWAN_STATUS_OK then
    (lorawan_status.LORAWAN_STATUS_OK,
     { st with ctrl_flags := { st.ctrl_flags with tx_done := false },
               device_current_state := device_states_t.DEVICE_STATE_SENDING },
     [Effect.macSetTxOngoing true])
  else
    (env.send_ongoing_status, st, [])

/-- LoRaWANStack::handle_tx: the send entry.  Order of the checks follows
the source: initialisation, NULL data, RejoinInProgress (returning BUSY
with nothing staged and nothing changed), the ResetInd/RekeyInd and
DeviceModeInd staging, session activity, tx_ongoing, sticky MAC request
staging, QoS counter reset, join status, port validation, flag
validation, prepare_ongoing_tx and the dispatch into Scheduling.  The Nat
in the ok result is the accepted length returned by prepare_ongoing_tx. -/
def handle_tx (st : StackState) (env : MacEnv) (port : Nat) (data_null : Bool)
    (length : Nat) (flags : Nat) (null_allowed : Bool) (allow_port_0 : Bool) :
    Except lorawan_status Nat × StackState × List Effect :=
  if st.device_current_state = device_states_t.DEVICE_STATE_NOT_INITIALIZED then
    (Except.error lorawan_status.LORAWAN_STATUS_NOT_INITIALIZED, st, [])
  else if null_allowed = false ∧ data_null = true then
    (Except.error lorawan_status.LORAWAN_STATUS_PARAMETER_INVALID, st, [])
  else if st.ctrl_flags.rejoin_in_progress then
    (Except.error lorawan_status.LORAWAN_STATUS_BUSY, st, [])
  else
    let r1 :=
      if st.reset_ind_requested then (st, [Effect.macSetupResetIndication])
      else if st.rekey_ind_needed then
        if st.rekey_ind_counter < env.adr_ack_limit then
          ({ st with rekey_ind_counter := st.rekey_ind_counter + 1 },
           [Effect.macSetupRekeyIndication])
        else
          let sta := { st with rekey_ind_needed := false }
          ({ sta with device_current_state := device_states_t.DEVICE_STATE_IDLE },
           send_event_to_application sta lorawan_event_t.JOIN_FAILURE)
      else (st, ([] : List Effect))
    let st1 := r1.1
    let r2 :=
      if st1.device_mode_ind_needed then
        (st1, [Effect.macSetupDeviceModeIndication st1.new_class_type])
      else (st1, ([] : List Effect))
    let st2 := r2.1
    let fxA := r1.2 ++ r2.2
    if st2.lw_session.active = false then
      (Except.error lorawan_status.LORAWAN_STATUS_NO_ACTIVE_SESSIONS, st2, fxA)
    else if env.tx_ongoing then
      (Except.error lorawan_status.LORAWAN_STATUS_WOULD_BLOCK, st2, fxA)
    else
      let fxB := fxA ++
        (if st2.link_check_requested then [Effect.macSetupLinkCheckRequest] else []) ++
        (if st2.device_time_requested then [Effect.macSetupDeviceTimeRequest] else []) ++
        (if st2.ping_slot_info_requested then [Effect.macAddPingSlotInfoReq] else [])
      let st3 := { st2 with qos_cnt := 1 }
      if env.nwk_joined = false then
        (Except.error lorawan_status.LORAWAN_STATUS_NO_NETWORK_JOINED, st3, fxB)
      else
        let rp := set_application_port st3 port allow_port_0
        if rp.1 ≠ lorawan_status.LORAWAN_STATUS_OK then
          (Except.error rp.1, st3, fxB)
        else
          let st4 := rp.2
          if flags &&& MSG_FLAG_MASK = MSG_UNCONFIRMED_FLAG ∨
              flags &&& MSG_FLAG_MASK = MSG_CONFIRMED_FLAG ∨
              flags &&& MSG_FLAG_MASK = MSG_PROPRIETARY_FLAG then
            let fxC := fxB ++ [Effect.macPrepareOngoingTx port length flags st4.num_retry]
            let r := process_scheduling_state st4 env
            if r.1 = lorawan_status.LORAWAN_STATUS_OK then
              (Except.ok env.prepare_len, r.2.1, fxC ++ r.2.2)
            else
              (Except.error r.1, r.2.1, fxC ++ r.2.2)
          else
            (Except.error lorawan_status.LORAWAN_STATUS_PARAMETER_INVALID, st4, fxB)

/-- LoRaWANStack::post_process_tx_with_reception: confirmed messages with
an ack complete with TxDone; without an ack the step sets RetryExhausted
only when continue_sending_process() denies a retry and the current slot
is not RX1 (RX1 non-reception is not final).  Unconfirmed messages either
re-enter Scheduling for QoS repetition or complete with TxDone.  The
final dispatch into the status-check processor is recorded as a
stateControllerReq effect. -/
def post_process_tx_with_reception (st : StackState) (env : MacEnv) :
    StackState × List Effect :=
  if env.req_type = mcps_type_t.MCPS_CONFIRMED then
    if env.is_ack_recvd then
      let st1 := { st with ctrl_flags :=
          { st.ctrl_flags with tx_done := true, retry_exhausted := false } }
      (make_tx_metadata_available st1 env,
       [Effect.macPostProcessMcpsReq,
        Effect.stateControllerReq device_states_t.DEVICE_STATE_STATUS_CHECK])
    else
      if env.continue_sending = false ∧
          env.current_slot ≠ rx_slot_t.RX_SLOT_WIN_1 then
        let st1 := { st with ctrl_flags :=
            { st.ctrl_flags with tx_done := false, retry_exhausted := true } }
        (make_tx_metadata_available st1 env,
         [Effect.macPostProcessMcpsReq,
          Effect.stateControllerReq device_states_t.DEVICE_STATE_STATUS_CHECK])
      else (st, [])
  else
    if LORAWAN_DEFAULT_QOS < env.qos_level ∧ st.qos_cnt < env.qos_level ∧
        env.prev_qos_level = env.qos_level then
      ({ st with ctrl_flags := { st.ctrl_flags with tx_done := false },
                 qos_cnt := st.qos_cnt + 1 },
       [Effect.queueStateController device_states_t.DEVICE_STATE_SCHEDULING])
    else
      let st1 := { st with ctrl_flags := { st.ctrl_flags with tx_done := true } }
      (make_tx_metadata_available st1 env,
       [Effect.macPostProcessMcpsReq,
        Effect.stateControllerReq device_states_t.DEVICE_STATE_STATUS_CHECK])

/-- LoRaWANStack::post_process_tx_no_reception: under RejoinInProgress
the flag is cleared and the state machine just runs to completion; for a
confirmed message a granted retry clears both TxDone and RetryExhausted
and returns, while a denied retry sets RetryExhausted (no slot check in
this function: its in-tree caller only reaches it for RX2); unconfirmed
messages set TxDone and possibly queue a QoS repetition.  The dispatch
into the status-check processor is recorded as a stateControllerReq
effect. -/
def post_process_tx_no_reception (st : StackState) (env : MacEnv) :
    StackState × List Effect :=
  if st.ctrl_flags.rejoin_in_progress then
    (state_machine_run_to_completion
      { st with ctrl_flags := { st.ctrl_flags with rejoin_in_progress := false } },
     [])
  else if env.req_type = mcps_type_t.MCPS_CONFIRMED then
    if env.continue_sending then
      ({ st with ctrl_flags :=
          { st.ctrl_flags with tx_done := false, retry_exhausted := false } }, [])
    else
      let st1 := { st with ctrl_flags :=
          { st.ctrl_flags with tx_done := false, retry_exhausted := true } }
      (state_machine_run_to_completion (make_tx_metadata_available st1 env),
       [Effect.macPostProcessMcpsReq,
        Effect.stateControllerReq device_states_t.DEVICE_STATE_STATUS_CHECK])
  else
    let st1 := { st with ctrl_flags := { st.ctrl_flags with tx_done := true } }
    if LORAWAN_DEFAULT_QOS < env.qos_level ∧ env.prev_qos_level = env.qos_level ∧
        st1.qos_cnt < env.qos_level then
      (state_machine_run_to_completion { st1 with qos_cnt := st1.qos_cnt + 1 },
       [Effect.queueStateController device_states_t.DEVICE_STATE_SCHEDULING])
    else
      (state_machine_run_to_completion (make_tx_metadata_available st1 env),
       [Effect.macPostProcessMcpsReq,
        Effect.stateControllerReq device_states_t.DEVICE_STATE_STATUS_CHECK])

/-- LoRaWANStack::mlme_indication_handler: a schedule-uplink indication
either queues an automatic empty uplink on port 0 (when the automatic
uplink configuration is on) or surfaces UPLINK_REQUIRED. -/
def mlme_indication_handler (st : StackState) (env : MacEnv) :
    StackState × List Effect :=
  if env.mlme_ind_type = mlme_ind_t.MLME_SCHEDULE_UPLINK then
    if env.cfg_automatic_uplink then
      ({ st with automatic_uplink_ongoing := true },
       [Effect.queueSendAutomaticUplink 0])
    else (st, send_event_to_application st lorawan_event_t.UPLINK_REQUIRED)
  else (st, [])

/-- LoRaWANStack::poll_rejoin: nothing while a rejoin is in progress;
when the type-1 period has elapsed, stamp the time and queue a type-1
rejoin; otherwise, when the type-0 downlink counter has reached the
MAC-provided max_count, reset it and queue a type-0 rejoin.  The final
branch also releases the rx staging buffer, as the source does. -/
def poll_rejoin (st : StackState) (env : MacEnv) : StackState × List Effect :=
  if st.ctrl_flags.rejoin_in_progress then (st, [])
  else if st.rejoin_type1_send_period <
      env.current_time_ms / 1000 - st.rejoin_type1_stamp then
    ({ st with ctrl_flags := { st.ctrl_flags with rejoin_in_progress := true },
               rejoin_type1_stamp := env.current_time_ms / 1000 },
     [Effect.queueProcessRejoin REJOIN_REQUEST_TYPE1 false])
  else if env.rejoin_max_count ≤ st.rejoin_type0_counter then
    ({ st with rejoin_type0_counter := 0,
               ctrl_flags := { st.ctrl_flags with rejoin_in_progress := true },
               rx_payload_in_use := false },
     [Effect.queueProcessRejoinType0])
  else ({ st with rx_payload_in_use := false }, [])

/-- LoRaWANStack::process_reception: enter Receiving, clear the
MsgReceived, TxDone and RetryExhausted flags, bump the type-0 rejoin
counter and hand the frame to the MAC; drop everything when not joined or
when RejoinInProgress (clearing that flag); otherwise refresh the RX
metadata and post-process according to the receive slot, finally
releasing the rx staging buffer. -/
def process_reception (st : StackState) (env : MacEnv) :
    StackState × List Effect :=
  let f0 := { st.ctrl_flags with msg_recvd := false, tx_done := false,
                                 retry_exhausted := false }
  let st0 := { st with
    device_current_state := device_states_t.DEVICE_STATE_RECEIVING,
    ctrl_flags := f0,
    rejoin_type0_counter := st.rejoin_type0_counter + 1 }
  let fx0 := [Effect.macOnRadioRxDone]
  if env.nwk_joined = false then
    ({ st0 with rx_payload_in_use := false }, fx0)
  else if st0.ctrl_flags.rejoin_in_progress then
    ({ st0 with ctrl_flags := { st0.ctrl_flags with rejoin_in_progress := false },
                rx_payload_in_use := false }, fx0)
  else
    let st1 := make_rx_metadata_available st0 env
    match env.current_slot with
    | rx_slot_t.RX_SLOT_WIN_1 | rx_slot_t.RX_SLOT_WIN_2
    | rx_slot_t.RX_SLOT_WIN_CLASS_C =>
      let r1 := post_process_tx_with_reception st1 env
      let r2 :=
        if env.mcps_ind_pending then
          (({ r1.1 with ctrl_flags := { r1.1.ctrl_flags with msg_recvd := true } } :
              StackState),
           [Effect.macPostProcessMcpsInd,
            Effect.stateControllerReq device_states_t.DEVICE_STATE_STATUS_CHECK])
        else (r1.1, ([] : List Effect))
      let st3 := if r2.1.ctrl_flags.tx_done then
          state_machine_run_to_completion r2.1 else r2.1
      let r4 :=
        if env.mlme_ind_pending ∧ st3.automatic_uplink_ongoing = false then
          let r := mlme_indication_handler st3 env
          (r.1, Effect.macPostProcessMlmeInd :: r.2)
        else (st3, ([] : List Effect))
      let r5 :=
        if env.cfg_version = lorawan_version_t.LORAWAN_VERSION_1_1 then
          poll_rejoin r4.1 env
        else (r4.1, ([] : List Effect))
      ({ r5.1 with rx_payload_in_use := false },
       fx0 ++ r1.2 ++ r2.2 ++ r4.2 ++ r5.2)
    | rx_slot_t.RX_SLOT_WIN_BEACON =>
      ({ st1 with rx_payload_in_use := false }, fx0)
    | rx_slot_t.RX_SLOT_WIN_UNICAST_PING_SLOT =>
      ({ st1 with ctrl_flags := { st1.ctrl_flags with msg_recvd := true },
                  rx_payload_in_use := false },
       fx0 ++ [Effect.stateControllerReq device_states_t.DEVICE_STATE_STATUS_CHECK])
    | rx_slot_t.RX_SLOT_WIN_MULTICAST_PING_SLOT =>
      ({ st1 with ctrl_flags := { st1.ctrl_flags with msg_recvd := true },
                  rx_payload_in_use := false },
       fx0 ++ [Effect.stateControllerReq device_states_t.DEVICE_STATE_STATUS_CHECK])

/-- LoRaWANStack::process_reception_timeout: bump the type-0 counter and
forward the timeout to the MAC; during a join an RX2 timeout retries the
join; otherwise an RX2 timeout post-processes the transmission without
reception, dispatches a status check, runs the state machine to
completion and polls the rejoin engine under LoRaWAN 1.1. -/
def process_reception_timeout (st : StackState) (env : MacEnv)
    (is_timeout : Bool) : StackState × List Effect :=
  let st0 := { st with rejoin_type0_counter := st.rejoin_type0_counter + 1 }
  let fx0 := [Effect.macOnRadioRxTimeout is_timeout]
  if env.current_slot = rx_slot_t.RX_SLOT_WIN_2 ∧ env.nwk_joined = false then
    let r := process_joining_state st0 env
    (r.2.1, fx0 ++ r.2.2)
  else if env.current_slot = rx_slot_t.RX_SLOT_WIN_2 then
    let r1 := post_process_tx_no_reception st0 env
    let st2 := state_machine_run_to_completion r1.1
    let r3 :=
      if env.cfg_version = lorawan_version_t.LORAWAN_VERSION_1_1 then
        poll_rejoin st2 env
      else (st2, ([] : List Effect))
    (r3.1,
     fx0 ++ r1.2 ++
       [Effect.stateControllerReq device_states_t.DEVICE_STATE_STATUS_CHECK] ++ r3.2)
  else (st0, fx0)

/-- Claim C4: while RejoinInProgress is set, a send through handle_tx (on
an initialised stack, past the NULL-pointer check) returns BUSY with the
state untouched and an empty effect trace - nothing is staged; and a
reception processed while the flag is set on a joined session is dropped:
the flag is cleared, the inbound message record and the RX metadata are
untouched, and the only outward effect is the raw-frame handoff to the
MAC - no application event and no RX data are produced. -/
theorem rejoin_in_progress_blocks (st : StackState) (env : MacEnv)
    (port : Nat) (data_null : Bool) (length flags : Nat)
    (null_allowed allow_port_0 : Bool)
    (hinit : st.device_current_state ≠ device_states_t.DEVICE_STATE_NOT_INITIALIZED)
    (hdata : null_allowed = true ∨ data_null = false)
    (hflag : st.ctrl_flags.rejoin_in_progress = true)
    (hjoin : env.nwk_joined = true) :
    handle_tx st env port data_null length flags null_allowed allow_port_0 =
      (Except.error lorawan_status.LORAWAN_STATUS_BUSY, st, []) ∧
    (process_reception st env).1.ctrl_flags.rejoin_in_progress = false ∧
    (process_reception st env).1.rx_msg = st.rx_msg ∧
    (process_reception st env).1.rx_metadata = st.rx_metadata ∧
    (process_reception st env).2 = [Effect.macOnRadioRxDone] := by
  refine ⟨?_, ?_⟩
  · unfold handle_tx
    rcases hdata with h | h <;> simp [hinit, hflag, h]
  · unfold process_reception
    simp [hjoin, hflag]

/-- State with the RejoinInProgress control flag raised. -/
def rejoin_state : StackState :=
  { base_state with ctrl_flags :=
      { base_state.ctrl_flags with rejoin_in_progress := true } }

/-- Witness for C4 at a concrete state and oracle. -/
theorem rejoin_in_progress_blocks_witness :
    handle_tx rejoin_state base_env 5 false 2 MSG_CONFIRMED_FLAG false false =
      (Except.error lorawan_status.LORAWAN_STATUS_BUSY, rejoin_state, []) ∧
    (process_reception rejoin_state base_env).2 = [Effect.macOnRadioRxDone] := by
  have h := rejoin_in_progress_blocks rejoin_state base_env 5 false 2
    MSG_CONFIRMED_FLAG false false (by decide) (Or.inr rfl) (by decide) (by decide)
  exact ⟨h.1, h.2.2.2.2⟩

/-- Running the state machine to completion only moves the device state;
the control flags are untouched. -/
theorem state_machine_run_to_completion_flags (s : StackState) :
    (state_machine_run_to_completion s).ctrl_flags = s.ctrl_flags := by
  unfold state_machine_run_to_completion
  split <;> rfl

/-- poll_rejoin never touches the RetryExhausted flag. -/
theorem poll_rejoin_retry_exhausted (s : StackState) (env : MacEnv) :
    (poll_rejoin s env).1.ctrl_flags.retry_exhausted =
      s.ctrl_flags.retry_exhausted := by
  unfold poll_rejoin
  split_ifs <;> rfl

/-- For a confirmed message outside a rejoin, the no-reception
post-processing leaves RetryExhausted equal to the denial of
continue_sending_process. -/
theorem post_process_tx_no_reception_retry (st : StackState) (env : MacEnv)
    (hrej : st.ctrl_flags.rejoin_in_progress = false)
    (hconf : env.req_type = mcps_type_t.MCPS_CONFIRMED) :
    (post_process_tx_no_reception st env).1.ctrl_flags.retry_exhausted =
      !env.continue_sending := by
  unfold post_process_tx_no_reception make_tx_metadata_available
  cases hcs : env.continue_sending
  · simp [hrej, hconf, hcs, state_machine_run_to_completion_flags]
  · simp [hrej, hconf, hcs]

/-- An RX2 timeout on a joined session ends with RetryExhausted equal to
the denial of continue_sending_process (confirmed message, no rejoin in
progress). -/
theorem process_reception_timeout_retry (st : StackState) (env : MacEnv)
    (b : Bool)
    (hrej : st.ctrl_flags.rejoin_in_progress = false)
    (hconf : env.req_type = mcps_type_t.MCPS_CONFIRMED)
    (hslot : env.current_slot = rx_slot_t.RX_SLOT_WIN_2)
    (hjoin : env.nwk_joined = true) :
    (process_reception_timeout st env b).1.ctrl_flags.retry_exhausted =
      !env.continue_sending := by
  unfold process_reception_timeout
  rw [if_neg (by simp [hslot, hjoin]), if_pos hslot]
  have hpp := post_process_tx_no_reception_retry
    { st with rejoin_type0_counter := st.rejoin_type0_counter + 1 } env hrej hconf
  cases hv : env.cfg_version <;>
    simp [hv, state_machine_run_to_completion_flags,
          poll_rejoin_retry_exhausted, hpp]

/-- Claim C5: on every confirmed-message post-processing step the
controller sets RetryExhausted exactly when continue_sending_process()
returns false and the current slot is not RX1.  With reception (the flag
is clear on entry, as process_reception clears it): the no-ack branch
sets the flag iff the retry is denied and the slot is not RX1, and an
acked message always leaves it clear.  Without reception: the timeout
processor reaches post_process_tx_no_reception only for RX2 (so never for
RX1), and there the resulting flag equals the denial of
continue_sending_process; for any other slot, in particular RX1, the
timeout leaves the flag untouched. -/
theorem retry_exhausted_exactly (st : StackState) (env : MacEnv) (b : Bool)
    (hconf : env.req_type = mcps_type_t.MCPS_CONFIRMED) :
    (env.is_ack_recvd = false → st.ctrl_flags.retry_exhausted = false →
      ((post_process_tx_with_reception st env).1.ctrl_flags.retry_exhausted = true ↔
        (env.continue_sending = false ∧
         env.current_slot ≠ rx_slot_t.RX_SLOT_WIN_1))) ∧
    (env.is_ack_recvd = true →
      (post_process_tx_with_reception st env).1.ctrl_flags.retry_exhausted =
        false) ∧
    (st.ctrl_flags.rejoin_in_progress = false →
      env.current_slot = rx_slot_t.RX_SLOT_WIN_2 → env.nwk_joined = true →
      ((process_reception_timeout st env b).1.ctrl_flags.retry_exhausted = true ↔
        env.continue_sending = false)) ∧
    (env.current_slot ≠ rx_slot_t.RX_SLOT_WIN_2 →
      (process_reception_timeout st env b).1.ctrl_flags.retry_exhausted =
        st.ctrl_flags.retry_exhausted) := by
  refine ⟨?_, ?_, ?_, ?_⟩
  · intro hack hre
    unfold post_process_tx_with_reception make_tx_metadata_available
    by_cases hcs : env.continue_sending = false
    · by_cases hsl : env.current_slot = rx_slot_t.RX_SLOT_WIN_1
      · simp [hconf, hack, hcs, hsl, hre]
      · simp [hconf, hack, hcs, hsl]
    · simp [hconf, hack, hcs, hre]
  · intro hack
    unfold post_process_tx_with_reception make_tx_metadata_available
    simp [hconf, hack]
  · intro hrej hslot hjoin
    rw [process_reception_timeout_retry st env b hrej hconf hslot hjoin]
    cases hcs : env.continue_sending <;> simp
  · intro hslot
    unfold process_reception_timeout
    simp [hslot]

/-- Oracle for a confirmed message without ack, retry denied, slot RX2. -/
def envC5 : MacEnv :=
  { base_env with
    req_type := mcps_type_t.MCPS_CONFIRMED
    is_ack_recvd := false
    continue_sending := false
    current_slot := rx_slot_t.RX_SLOT_WIN_2 }

/-- Witness for C5 at a concrete state and oracle. -/
theorem retry_exhausted_exactly_witness :
    ((post_process_tx_with_reception base_state envC5).1.ctrl_flags.retry_exhausted
        = true ↔
      (envC5.continue_sending = false ∧
       envC5.current_slot ≠ rx_slot_t.RX_SLOT_WIN_1)) ∧
    ((process_reception_timeout base_state envC5 true).1.ctrl_flags.retry_exhausted
        = true ↔
      envC5.continue_sending = false) := by
  have h := retry_exhausted_exactly base_state envC5 true (by decide)
  exact ⟨h.1 (by decide) (by decide), h.2.2.1 (by decide) (by decide) (by decide)⟩

/-- Claim C6 counterexample: starting from the state a completed shutdown
leaves behind, a plain connect() call (ABP configuration, MAC accepting
the join) returns the stack to operation - session active again, device
Idle, CONNECTED emitted - without any re-initialisation;
process_connecting_state explicitly admits the Shutdown entry state.
This refutes the part of the claim stating that no operation other than
re-initialisation can return the stack to operation. -/
theorem connect_after_shutdown_reconnects :
    (process_shutdown_state base_state).2.1.device_current_state =
      device_states_t.DEVICE_STATE_SHUTDOWN ∧
    (connect (process_shutdown_state base_state).2.1 base_env).1 =
      lorawan_status.LORAWAN_STATUS_OK ∧
    (connect (process_shutdown_state base_state).2.1 base_env).2.1.lw_session.active
      = true ∧
    (connect (process_shutdown_state base_state).2.1 base_env).2.1.device_current_state
      = device_states_t.DEVICE_STATE_IDLE ∧
    Effect.appEvent lorawan_event_t.CONNECTED ∈
      (connect (process_shutdown_state base_state).2.1 base_env).2.2 := by
  decide

/-- Claim C6 (amended): after process_shutdown_state completes, every
control flag is zero, the session is inactive, the device state is
Shutdown, DEVICE_OFF is reported and DISCONNECTED is emitted (an event
callback being registered); however re-initialisation is not the only way
back to operation: a connect() call issued in the Shutdown state (ABP
configuration, MAC accepting) reactivates the session and settles the
device in Idle. -/
theorem shutdown_clears_then_connect_restores (st : StackState) (env : MacEnv)
    (hcb : st.events_callback_set = true)
    (hotaa : env.cfg_otaa = false)
    (hprep : env.prepare_join_status = lorawan_status.LORAWAN_STATUS_OK)
    (hjoin : env.join_status = lorawan_status.LORAWAN_STATUS_OK) :
    (process_shutdown_state st).1 = lorawan_status.LORAWAN_STATUS_DEVICE_OFF ∧
    (process_shutdown_state st).2.1.ctrl_flags = CtrlFlags.zero ∧
    (process_shutdown_state st).2.1.lw_session.active = false ∧
    (process_shutdown_state st).2.1.device_current_state =
      device_states_t.DEVICE_STATE_SHUTDOWN ∧
    Effect.appEvent lorawan_event_t.DISCONNECTED ∈
      (process_shutdown_state st).2.2 ∧
    (connect (process_shutdown_state st).2.1 env).1 =
      lorawan_status.LORAWAN_STATUS_OK ∧
    (connect (process_shutdown_state st).2.1 env).2.1.lw_session.active = true ∧
    (connect (process_shutdown_state st).2.1 env).2.1.device_current_state =
      device_states_t.DEVICE_STATE_IDLE := by
  refine ⟨rfl, rfl, rfl, rfl, ?_, ?_, ?_, ?_⟩
  · unfold process_shutdown_state send_event_to_application
    simp [hcb]
  all_goals
    unfold connect process_shutdown_state handle_connect
      process_connecting_state process_connected_state
      send_event_to_application
    by_cases hv : env.cfg_version = lorawan_version_t.LORAWAN_VERSION_1_1 <;>
      simp [hcb, hotaa, hprep, hjoin, hv, CtrlFlags.zero]

/-- Witness for C6 (amended) at a concrete state and oracle. -/
theorem shutdown_clears_then_connect_restores_witness :
    (process_shutdown_state base_state).2.1.ctrl_flags = CtrlFlags.zero ∧
    Effect.appEvent lorawan_event_t.DISCONNECTED ∈
      (process_shutdown_state base_state).2.2 ∧
    (connect (process_shutdown_state base_state).2.1 base_env).2.1.lw_session.active
      = true := by
  have h := shutdown_clears_then_connect_restores base_state base_env
    (by decide) (by decide) (by decide) (by decide)
  exact ⟨h.2.1, h.2.2.2.2.1, h.2.2.2.2.2.2.1⟩

/-- Iterate forced_timer_expiry the given number of times, concatenating
the effect traces. -/
def run_forced_expiries (env : MacEnv) : Nat → StackState → StackState × List Effect
  | 0, st => (st, [])
  | n + 1, st =>
    let r := forced_timer_expiry st env
    let r2 := run_forced_expiries env n r.1
    (r2.1, r.2 ++ r2.2)

/-- Number of rejoin transmissions (MacOps rejoin invocations) recorded
in an effect trace. -/
def countRejoins (fx : List Effect) : Nat :=
  (fx.filter fun e =>
    match e with
    | Effect.macRejoin _ _ _ => true
    | _ => false).length

/-- A ForceRejoinReq confirmation: rejoin type 1, period 0, max_retries 1,
data rate 3. -/
def force_rejoin_conf : loramac_mlme_confirm_t :=
  { type := mlme_type_t.MLME_FORCE_REJOIN
    status := loramac_event_info_status_t.LORAMAC_EVENT_INFO_STATUS_OK
    demod_margin := 0
    nb_gateways := 0
    classType := device_class_t.CLASS_A
    rejoin_type := 1
    datarate := 3
    period := 0
    max_retries := 1 }

/-- Oracle with a 1.1 server and a fixed random draw of 5. -/
def env_force : MacEnv := { envLW11 with rand_val := 5 }

/-- Claim C7, code evaluated at the failing input.  The handler behaves
as the claim states on the request shape: the type-1 request is rewritten
to type 0, and the retry period is ((2 to the period) * 32 + jitter) *
1000 ms with jitter = rand mod 33 = 5, here 37000 ms.  But the attempt
bound fails: max_retries = 1 is stored as retry count 2, the handler
issues one immediate attempt, and because _forced_counter is never
incremented anywhere, each of the following four timer expiries issues a
further attempt and re-arms the timer (counter still 0, timer still
running), for a total of five attempts - already more than the
network-provided count, with no bound ever to take effect. -/
theorem force_rejoin_retries_unbounded :
    (mlme_confirm_handler base_state env_force force_rejoin_conf).1.forced_rejoin_type
      = REJOIN_REQUEST_TYPE0 ∧
    (mlme_confirm_handler base_state env_force force_rejoin_conf).1.forced_period
      = (2 ^ 0 * 32 + 5) * 1000 ∧
    (mlme_confirm_handler base_state env_force force_rejoin_conf).1.forced_retry_count
      = 2 ∧
    countRejoins (mlme_confirm_handler base_state env_force force_rejoin_conf).2
      = 1 ∧
    (run_forced_expiries env_force 4
      (mlme_confirm_handler base_state env_force force_rejoin_conf).1).1.forced_counter
      = 0 ∧
    (run_forced_expiries env_force 4
      (mlme_confirm_handler base_state env_force force_rejoin_conf).1).1.forced_timer_running
      = true ∧
    countRejoins (run_forced_expiries env_force 4
      (mlme_confirm_handler base_state env_force force_rejoin_conf).1).2 = 4 := by
  decide
